import Mathlib

/-! BrewPi temperature controller (`app/controller/TempControl.cpp`)

A shallow embedding of `TempControl::updatePID`, `updateState`, `updateOutputs`,
`setMode`, `setBeerTemp`, `setFridgeTemp`, `storeSettings`, `loadSettings`,
`storeConstants`, `loadConstants`, `init`, `timeSinceHeating` and the `ccDefaults`
table, followed by theorems about them.

Machine integers are unbounded `Int`s with explicit wrapping where the C code
narrows a value: `temperature` is `int16_t`, `long_temperature` is `int32_t`,
`duty` is `uint16_t`, `integralUpdateCounter` is `unsigned char`. Operands of
`temperature` type are promoted to `int` before arithmetic; `int` is taken to be
at least 32 bits wide, so a sum or difference of two `temperature`s never
overflows before it is narrowed or compared.

The static members of the class and the two function-local statics
(`integralUpdateCounter`, `fridgeIntegrator`) are fields of one state record.
What the collaborators (sensors, door, clock, actuators) answer during a call is
passed in as an `Inputs` record.
-/

namespace BrewPi

/-! ## Machine integers -/

/-- Narrowing conversion to `int16_t` (`temperature`). -/
def wrap16 (x : Int) : Int := (x + 32768) % 65536 - 32768

/-- Narrowing conversion to `int32_t` (`long_temperature`). -/
def wrap32 (x : Int) : Int := (x + 2147483648) % 4294967296 - 2147483648

/-- Narrowing conversion to `uint16_t`. -/
def wrapU16 (x : Int) : Int := x % 65536

/-- Narrowing conversion to `unsigned char`. -/
def wrapU8 (n : Nat) : Nat := n % 256

/-- The value fits `int16_t`. -/
def isInt16 (x : Int) : Prop := -32768 ≤ x ∧ x ≤ 32767

/-- The value fits `int32_t`. -/
def isInt32 (x : Int) : Prop := -2147483648 ≤ x ∧ x ≤ 2147483647

instance (x : Int) : Decidable (isInt16 x) := by unfold isInt16; infer_instance

instance (x : Int) : Decidable (isInt32 x) := by unfold isInt32; infer_instance

/-- C `abs` on an `int`. -/
def iabs (x : Int) : Int := if x < 0 then -x else x

/-! ## Constants and helpers of headers that are not part of the source tree -/

/-- The constants of `TemperatureFormats.h` that `TempControl.cpp` names. The header is
not part of the source tree, so their values are parameters of the embedding. The last
field records how the macro `tempDiffToInt` drops the fraction bits: `true` for an
arithmetic shift (rounding toward minus infinity), `false` for a division (rounding
toward zero); neither the source nor the spec says which. -/
structure TempFormats where
  INVALID_TEMP : Int
  DISABLED_TEMP : Int
  MIN_TEMP : Int
  MAX_TEMP : Int
  toIntFloors : Bool

/-- Modelled from the spec: the values of `TemperatureFormats.h` are missing; the spec
says `temperature` is a signed 16-bit Q7.9 value, `MAX_TEMP` is about 64 degrees (the
largest value, 100% duty), `MIN_TEMP` about -64 degrees, and the two sentinels are told
apart from legal readings; the cooling branch is called symmetric to the heating branch,
so `MIN_TEMP` mirrors `MAX_TEMP` and `tempDiffToInt` rounds toward zero. Used only to
instantiate theorems at concrete inputs. -/
def stdFormats : TempFormats :=
  { INVALID_TEMP := -32768, DISABLED_TEMP := -32767, MIN_TEMP := -32767, MAX_TEMP := 32767,
    toIntFloors := false }

/-- The example constants with a `tempDiffToInt` that shifts (rounds toward minus
infinity). -/
def shiftFormats : TempFormats := { stdFormats with toIntFloors := true }

/-- Modelled from the spec: `isDisabledOrInvalid` (TemperatureFormats.h) is missing; the
spec calls it the single predicate that tells `INVALID_TEMP` and `DISABLED_TEMP` apart
from legal readings. -/
def isDisabledOrInvalid (F : TempFormats) (t : Int) : Bool :=
  t == F.DISABLED_TEMP || t == F.INVALID_TEMP

/-- Modelled from the spec: `constrainTemp` (TemperatureFormats.h) is missing; the spec
calls it `clamp(value, lower, upper)`. The lower bound is tested first, as in the
Arduino `constrain` macro. -/
def constrainTemp (val lower upper : Int) : Int :=
  if val < lower then lower else if val > upper then upper else val

/-- Modelled from the spec: `multiplyFactorTemperatureDiff` (TemperatureFormats.h) is
missing; the spec describes the Q7.9 product as widening multiply, then narrow with
saturation. Both arguments are `temperature`s. -/
def multiplyFactorTemperatureDiff (F : TempFormats) (factor b : Int) : Int :=
  constrainTemp ((factor * b) / 512) F.MIN_TEMP F.MAX_TEMP

/-- Modelled from the spec: `multiplyFactorTemperatureDiffLong` (TemperatureFormats.h) is
missing; as `multiplyFactorTemperatureDiff` with a `long_temperature` second argument:
widening multiply, then narrow with saturation. -/
def multiplyFactorTemperatureDiffLong (F : TempFormats) (factor b : Int) : Int :=
  constrainTemp ((factor * b) / 512) F.MIN_TEMP F.MAX_TEMP

/-- Modelled from the spec: `tempDiffToInt` (TemperatureFormats.h) is missing; the spec
calls it `toInt`, the integer part of a Q7.9 value: the nine fraction bits are dropped,
by a shift or by a division as `F.toIntFloors` says (the two differ on negative values
that are not whole degrees). -/
def tempDiffToInt (F : TempFormats) (val : Int) : Int :=
  if F.toIntFloors then val / 512 else Int.tdiv val 512

/-! ## Data model -/

/-- The `states` enumeration, as far as `updateState` dispatches on it. -/
inductive states where
  | IDLE
  | STATE_OFF
  | DOOR_OPEN
  | HEATING
  | COOLING
  deriving DecidableEq

open states

/-- Mode character `MODE_OFF`. -/
def MODE_OFF : Char := 'o'

/-- Mode character `MODE_BEER_CONSTANT`. -/
def MODE_BEER_CONSTANT : Char := 'b'

/-- Mode character `MODE_BEER_PROFILE`. -/
def MODE_BEER_PROFILE : Char := 'p'

/-- Mode character `MODE_FRIDGE_CONSTANT`. -/
def MODE_FRIDGE_CONSTANT : Char := 'f'

/-- Mode character `MODE_TEST`. -/
def MODE_TEST : Char := 't'

/-- The fields of `ControlConstants`, in the order of the `ccDefaults` initialiser. -/
structure ControlConstants where
  tempFormat : Char := 'C'
  tempSettingMin : Int := 0
  tempSettingMax : Int := 0
  Kp : Int := 0
  Ki : Int := 0
  Kd : Int := 0
  iMaxError : Int := 0
  idleRangeHigh : Int := 0
  idleRangeLow : Int := 0
  fridgeFastFilter : Nat := 0
  fridgeSlowFilter : Nat := 0
  fridgeSlopeFilter : Nat := 0
  beerFastFilter : Nat := 0
  beerSlowFilter : Nat := 0
  beerSlopeFilter : Nat := 0
  lightAsHeater : Bool := false
  rotaryHalfSteps : Nat := 0
  pidMax : Int := 0
  heatPwmPeriod : Nat := 0
  coolPwmPeriod : Nat := 0
  fridgePwmKpHeat : Int := 0
  fridgePwmKiHeat : Int := 0
  fridgePwmKpCool : Int := 0
  fridgePwmKiCool : Int := 0
  beerPwmKpHeat : Int := 0
  beerPwmKiHeat : Int := 0

/-- The fields of `ControlSettings`. -/
structure ControlSettings where
  mode : Char := 'o'
  beerSetting : Int := 0
  fridgeSetting : Int := 0

/-- The fields of `ControlVariables` that `TempControl.cpp` uses. -/
structure ControlVariables where
  beerDiff : Int := 0
  diffIntegral : Int := 0
  beerSlope : Int := 0
  p : Int := 0
  i : Int := 0
  d : Int := 0

/-- The filter coefficients last handed to the fridge and the beer sensor. -/
structure FilterCoefficients where
  fridgeFast : Nat := 0
  fridgeSlow : Nat := 0
  fridgeSlope : Nat := 0
  beerFast : Nat := 0
  beerSlow : Nat := 0
  beerSlope : Nat := 0

/-- The controller: the static members of `TempControl`, the two function-local statics,
and what the collaborators were last told (PWM duties and periods, light, fan, filter
coefficients, NV store, host link). -/
structure TempControl where
  cc : ControlConstants := {}
  cs : ControlSettings := {}
  cv : ControlVariables := {}
  state : states := IDLE
  doorOpen : Bool := false
  storedBeerSetting : Int := 0
  lastIdleTime : Nat := 0
  lastHeatTime : Nat := 0
  lastCoolTime : Nat := 0
  integralUpdateCounter : Nat := 0
  fridgeIntegrator : Int := 0
  heaterPwm : Int := 0
  coolerPwm : Int := 0
  lightActive : Bool := false
  fanActive : Bool := false
  nvSettings : Nat → Option ControlSettings := fun _ => none
  nvWrites : Nat := 0
  annotations : Nat := 0
  nvConstants : Nat → Option ControlConstants := fun _ => none
  filters : FilterCoefficients := {}
  chamberHeaterPeriod : Nat := 0
  chamberCoolerPeriod : Nat := 0
  beerHeaterPeriod : Nat := 0

/-- What the collaborators answer during one call: sensor connection flags and filtered
readings, the door sensor, whether each actuator is installed (its bare actuator is not
`defaultActuator`), the clock, and the camera light flag. -/
structure Inputs where
  beerConnected : Bool := true
  fridgeConnected : Bool := true
  beerSlowFiltered : Int := 0
  beerSlope : Int := 0
  beerFastFiltered : Int := 0
  fridgeFastFiltered : Int := 0
  doorSense : Bool := false
  coolerInstalled : Bool := true
  heaterInstalled : Bool := true
  lightInstalled : Bool := false
  seconds : Nat := 0
  cameraLightActive : Bool := false

/-- The inline `TempControl::modeIsBeer` of TempControl.h. -/
def modeIsBeer (s : TempControl) : Bool :=
  s.cs.mode == MODE_BEER_CONSTANT || s.cs.mode == MODE_BEER_PROFILE

/-! ## `TempControl::storeSettings` and `eepromManager.storeTempSettings` -/

/-- `TempControl::storeSettings`: the settings block is written to the NV store at
`offset` and `storedBeerSetting` remembers the stored beer setting. The store is kept per
block: a read at an offset returns the block last written there. -/
def storeSettings (offset : Nat) (s : TempControl) : TempControl :=
  { s with nvSettings := fun o => if o = offset then some s.cs else s.nvSettings o,
           nvWrites := s.nvWrites + 1,
           storedBeerSetting := s.cs.beerSetting }

/-- Modelled from the spec: `EepromManager::storeTempSettings` is missing; the spec says
the setters persist the settings, which is one `storeSettings` call at the offset the
manager keeps for the settings block (taken to be 0; the controller never looks at it). -/
def storeTempSettings (s : TempControl) : TempControl := storeSettings 0 s

/-! ## `TempControl::updatePID` -/

/-- The test `integralUpdateCounter++ == 60`: the value before the increment is compared. -/
def cadenceHit (s : TempControl) : Bool := s.integralUpdateCounter == 60

/-- The value of `integratorUpdate` when it is added to `cv.diffIntegral`
(lines 264-306); `beerDiff` is the `cv.beerDiff` just computed. -/
def integratorUpdate (s : TempControl) (beerDiff fridgeFastFiltered : Int) : Int :=
  if s.state ≠ IDLE then 0
  else if iabs beerDiff < s.cc.iMaxError then
    let updateSign : Bool := decide (beerDiff > 0)
    let integratorSign : Bool := decide (s.cv.diffIntegral > 0)
    if updateSign == integratorSign then
      let u1 := if s.cs.fridgeSetting ≥ s.cc.tempSettingMax then 0 else beerDiff
      let u2 := if s.cs.fridgeSetting ≤ s.cc.tempSettingMin then 0 else u1
      let u3 := if s.cs.fridgeSetting - s.cs.beerSetting ≥ s.cc.pidMax then 0 else u2
      let u4 := if s.cs.beerSetting - s.cs.fridgeSetting ≥ s.cc.pidMax then 0 else u3
      let u5 := if !updateSign && decide (fridgeFastFiltered > s.cs.fridgeSetting + 1024)
                then 0 else u4
      if updateSign && decide (fridgeFastFiltered < s.cs.fridgeSetting - 1024) then 0 else u5
    else wrap16 (beerDiff * 2)
  else wrap16 (-(s.cv.diffIntegral / 8))

/-- The lower bound of the clamp (lines 323-324). -/
def pidLowerBound (s : TempControl) : Int :=
  if s.cs.beerSetting ≤ s.cc.tempSettingMin + s.cc.pidMax then s.cc.tempSettingMin
  else wrap16 (s.cs.beerSetting - s.cc.pidMax)

/-- The upper bound of the clamp (lines 327-328). -/
def pidUpperBound (s : TempControl) : Int :=
  if s.cs.beerSetting ≥ s.cc.tempSettingMax - s.cc.pidMax then s.cc.tempSettingMax
  else wrap16 (s.cs.beerSetting + s.cc.pidMax)

/-- `TempControl::updatePID`. -/
def updatePID (F : TempFormats) (inp : Inputs) (s : TempControl) : TempControl :=
  if modeIsBeer s then
    if isDisabledOrInvalid F s.cs.beerSetting then
      { s with cs := { s.cs with fridgeSetting := F.DISABLED_TEMP } }
    else
      let beerDiff := wrap16 (s.cs.beerSetting - inp.beerSlowFiltered)
      let beerSlope := inp.beerSlope
      let fridgeFastFiltered := inp.fridgeFastFiltered
      let counter := if cadenceHit s then 0 else wrapU8 (s.integralUpdateCounter + 1)
      let diffIntegral :=
        if cadenceHit s then
          wrap32 (s.cv.diffIntegral + integratorUpdate s beerDiff fridgeFastFiltered)
        else s.cv.diffIntegral
      let p := multiplyFactorTemperatureDiff F s.cc.Kp beerDiff
      let i := multiplyFactorTemperatureDiffLong F s.cc.Ki diffIntegral
      let d := multiplyFactorTemperatureDiff F s.cc.Kd beerSlope
      let newFridgeSetting := s.cs.beerSetting + p + i + d
      { s with
        integralUpdateCounter := counter
        cv := { beerDiff := beerDiff, diffIntegral := diffIntegral, beerSlope := beerSlope,
                p := p, i := i, d := d }
        cs := { s.cs with
                fridgeSetting :=
                  constrainTemp newFridgeSetting (pidLowerBound s) (pidUpperBound s) } }
  else if s.cs.mode == MODE_FRIDGE_CONSTANT then
    { s with cs := { s.cs with beerSetting := F.DISABLED_TEMP } }
  else s

/-! ## `TempControl::updateState` -/

/-- The door sensor is read and a change is reported to the host link (lines 343-350). -/
def updateDoor (inp : Inputs) (s : TempControl) : TempControl :=
  if inp.doorSense != s.doorOpen then
    { s with doorOpen := inp.doorSense, annotations := s.annotations + 1 }
  else s

/-- The condition of the second guard (lines 359-360): the fridge setting is disabled or
invalid, the fridge sensor is disconnected, or the beer sensor is disconnected in a beer
mode. -/
def sensorGate (F : TempFormats) (inp : Inputs) (s : TempControl) : Bool :=
  isDisabledOrInvalid F s.cs.fridgeSetting || !inp.fridgeConnected
    || (!inp.beerConnected && modeIsBeer s)

/-- The local `stayIdle` when the `switch` is reached. -/
def stayIdle (F : TempFormats) (inp : Inputs) (s : TempControl) : Bool :=
  s.cs.mode == MODE_OFF || sensorGate F inp s

/-- The member `state` when the `switch` is reached (lines 352-364). -/
def gatedState (F : TempFormats) (inp : Inputs) (s : TempControl) : states :=
  if sensorGate F inp s then IDLE
  else if s.cs.mode == MODE_OFF then STATE_OFF
  else s.state

/-- The `switch (state)` of `updateState` (lines 370-445), entered with `state = st`. -/
def dispatchState (inp : Inputs) (stay : Bool) (st : states) (s : TempControl) : TempControl :=
  let fridgeFast := inp.fridgeFastFiltered
  let secs := inp.seconds
  match st with
  | IDLE | STATE_OFF =>
    let s1 := { s with state := st, lastIdleTime := secs }
    if stay then s1
    else if fridgeFast > s.cs.fridgeSetting + s.cc.idleRangeHigh then
      if inp.coolerInstalled then { s1 with state := COOLING } else s1
    else if fridgeFast < s.cs.fridgeSetting + s.cc.idleRangeLow then
      if inp.heaterInstalled || (s.cc.lightAsHeater && inp.lightInstalled) then
        { s1 with state := HEATING }
      else s1
    else { s1 with state := IDLE }
  | COOLING =>
    if !inp.coolerInstalled then { s with state := IDLE }
    else if fridgeFast ≤ s.cs.fridgeSetting then { s with state := IDLE, lastCoolTime := secs }
    else { s with state := COOLING, lastCoolTime := secs }
  | HEATING =>
    if !inp.heaterInstalled then { s with state := IDLE }
    else if fridgeFast ≥ s.cs.fridgeSetting then { s with state := IDLE }
    else { s with state := HEATING }
  | DOOR_OPEN => { s with state := DOOR_OPEN }

/-- `TempControl::updateState`. -/
def updateState (F : TempFormats) (inp : Inputs) (s : TempControl) : TempControl :=
  let s1 := updateDoor inp s
  dispatchState inp (stayIdle F inp s1) (gatedState F inp s1) s1

/-! ## `TempControl::updateOutputs` -/

/-- `TempControl::stateIsHeating`. -/
def stateIsHeating (s : TempControl) : Bool := s.state == HEATING

/-- `TempControl::stateIsCooling`. -/
def stateIsCooling (s : TempControl) : Bool := s.state == COOLING

/-- Modelled from the spec: the macro `doubleToTempDiff` (TemperatureFormats.h) is
missing; `doubleToTempDiff(1.0)` is one degree in Q7.9, 512 units. -/
def oneDegree : Int := 512

/-- The local `fridgeError` (line 469). -/
def fridgeError (inp : Inputs) (s : TempControl) : Int :=
  wrap16 (s.cs.fridgeSetting - inp.fridgeFastFiltered)

/-- The local `fridgeErrorForIntegral` (line 470). -/
def fridgeErrorForIntegral (inp : Inputs) (s : TempControl) : Int :=
  constrainTemp (fridgeError inp s) (-oneDegree) oneDegree

/-- The local `dutyLong` of the heating branch (lines 476-480). -/
def dutyLongHeat (F : TempFormats) (inp : Inputs) (s : TempControl) : Int :=
  multiplyFactorTemperatureDiff F (Int.tdiv s.cc.fridgePwmKpHeat 4) (fridgeError inp s)
    + multiplyFactorTemperatureDiff F s.cc.fridgePwmKiHeat
        (wrap16 (Int.tdiv s.fridgeIntegrator 240))

/-- The local `dutyLong` of the cooling branch (lines 491-495). -/
def dutyLongCool (F : TempFormats) (inp : Inputs) (s : TempControl) : Int :=
  multiplyFactorTemperatureDiff F (Int.tdiv s.cc.fridgePwmKpCool 4) (fridgeError inp s)
    + multiplyFactorTemperatureDiff F s.cc.fridgePwmKiCool
        (wrap16 (Int.tdiv s.fridgeIntegrator 240))

/-- The `duty` handed to `chamberHeater -> setPwm` in the heating branch (lines 481-483). -/
def heatDuty (F : TempFormats) (inp : Inputs) (s : TempControl) : Int :=
  wrapU16 (tempDiffToInt F (4 * constrainTemp (dutyLongHeat F inp s) 0 F.MAX_TEMP))

/-- The `duty` handed to `chamberCooler -> setPwm` in the cooling branch (lines 496-498). -/
def coolDuty (F : TempFormats) (inp : Inputs) (s : TempControl) : Int :=
  wrapU16 (-(tempDiffToInt F (4 * constrainTemp (dutyLongCool F inp s) F.MIN_TEMP 0)))

/-- The outer `antiWindup` when line 510 reads it. In the heating branch it is
`dutyConstrained - dutyLong`, zeroed when positive. The cooling branch declares a new
local of the same name (line 500), so the outer variable keeps its initial 0 there. -/
def antiWindup (F : TempFormats) (inp : Inputs) (s : TempControl) : Int :=
  if stateIsHeating s then
    let a := constrainTemp (dutyLongHeat F inp s) 0 F.MAX_TEMP - dutyLongHeat F inp s
    if a > 0 then 0 else a
  else 0

/-- `TempControl::updateOutputs`. -/
def updateOutputs (F : TempFormats) (inp : Inputs) (s : TempControl) : TempControl :=
  if s.cs.mode == MODE_TEST then s
  else
    let heating := stateIsHeating s
    let cooling := stateIsCooling s
    let s1 := { s with
      lightActive := s.doorOpen || (s.cc.lightAsHeater && heating) || inp.cameraLightActive
      fanActive := heating || cooling
      fridgeIntegrator :=
        wrap32 (s.fridgeIntegrator + fridgeErrorForIntegral inp s + antiWindup F inp s) }
    if heating then { s1 with heaterPwm := heatDuty F inp s, coolerPwm := 0 }
    else if cooling then { s1 with coolerPwm := coolDuty F inp s, heaterPwm := 0 }
    else { s1 with heaterPwm := 0, coolerPwm := 0 }

/-! ## `TempControl::setMode`, `setBeerTemp`, `setFridgeTemp` -/

/-- `TempControl::setMode`. -/
def setMode (F : TempFormats) (newMode : Char) (force : Bool) (s : TempControl) : TempControl :=
  let changed : Bool := newMode != s.cs.mode
  let s1 := if changed then { s with state := IDLE } else s
  if force || changed then
    let s2 := { s1 with cs := { s1.cs with mode := newMode } }
    let s3 :=
      if newMode == MODE_OFF then
        { s2 with cs := { s2.cs with beerSetting := F.DISABLED_TEMP,
                                     fridgeSetting := F.DISABLED_TEMP } }
      else s2
    storeTempSettings s3
  else s1

/-- `TempControl::setBeerTemp`; `intToTempDiff(1) / 4` is a quarter degree, 128 units. -/
def setBeerTemp (F : TempFormats) (inp : Inputs) (newTemp : Int) (s : TempControl) :
    TempControl :=
  let s1 := { s with cs := { s.cs with beerSetting := newTemp } }
  let s2 := updateState F inp (updatePID F inp s1)
  if s2.cs.mode != MODE_BEER_PROFILE || decide (iabs (s.storedBeerSetting - newTemp) > 128) then
    storeTempSettings s2
  else s2

/-- `TempControl::setFridgeTemp`. -/
def setFridgeTemp (F : TempFormats) (inp : Inputs) (newTemp : Int) (s : TempControl) :
    TempControl :=
  let s1 := { s with cs := { s.cs with fridgeSetting := newTemp } }
  storeTempSettings (updateState F inp (updatePID F inp s1))

/-- One control tick after the sensors were refreshed: `updatePID`, `updateState`,
`updateOutputs`, all against the same readings. -/
def tick (F : TempFormats) (inp : Inputs) (s : TempControl) : TempControl :=
  updateOutputs F inp (updateState F inp (updatePID F inp s))

/-! ## `TempControl::loadSettings`, `storeConstants`, `loadConstants`, `initFilters` -/

/-- `TempControl::loadSettings`: the settings block at `offset` is read into `cs`,
`storedBeerSetting` is set from it, and `setMode(cs.mode, true)` forces the mode update.
The result is `none` when no block was ever written at `offset` (its content is unknown). -/
def loadSettings (F : TempFormats) (offset : Nat) (s : TempControl) : Option TempControl :=
  match s.nvSettings offset with
  | none => none
  | some cs =>
    let s1 := { s with cs := cs, storedBeerSetting := cs.beerSetting }
    some (setMode F s1.cs.mode true s1)

/-- `TempControl::storeConstants`: the constants block is written to the NV store at
`offset`. -/
def storeConstants (offset : Nat) (s : TempControl) : TempControl :=
  { s with nvConstants := fun o => if o = offset then some s.cc else s.nvConstants o,
           nvWrites := s.nvWrites + 1 }

/-- `TempControl::initFilters`: the six filter coefficients of `cc` are handed to the
sensors. -/
def initFilters (s : TempControl) : TempControl :=
  { s with filters :=
      { fridgeFast := s.cc.fridgeFastFilter, fridgeSlow := s.cc.fridgeSlowFilter,
        fridgeSlope := s.cc.fridgeSlopeFilter, beerFast := s.cc.beerFastFilter,
        beerSlow := s.cc.beerSlowFilter, beerSlope := s.cc.beerSlopeFilter } }

/-- `TempControl::loadConstants`: the constants block at `offset` is read into `cc`, the
filters are initialised and the three PWM periods are set. The result is `none` when no
block was ever written at `offset`. -/
def loadConstants (offset : Nat) (s : TempControl) : Option TempControl :=
  match s.nvConstants offset with
  | none => none
  | some cc =>
    let s1 := initFilters { s with cc := cc }
    some { s1 with chamberHeaterPeriod := s1.cc.heatPwmPeriod,
                   beerHeaterPeriod := s1.cc.heatPwmPeriod,
                   chamberCoolerPeriod := s1.cc.coolPwmPeriod }

/-! ## `TempControl::init` and `timeSinceHeating` -/

/-- `TempControl::init`: the state becomes idle, the mode off, and the two timers
`lastHeatTime` and `lastCoolTime` are set to 0 (lines 171-172 and 212-213). The creation of
missing sensors and actuators and the sensor refresh concern the collaborators only, whose
answers are `Inputs`. -/
def init (s : TempControl) : TempControl :=
  { s with state := IDLE, cs := { s.cs with mode := MODE_OFF },
           lastHeatTime := 0, lastCoolTime := 0 }

/-- `TempControl::timeSinceHeating`: `ticks.timeSince(lastHeatTime)`. The clock function
`timeSince` (Ticks.h) is not part of the source tree and is a parameter. -/
def timeSinceHeating (timeSince : Nat → Nat) (s : TempControl) : Nat :=
  timeSince s.lastHeatTime

/-! ## `ccDefaults` -/

/-- Modelled from the spec: the macro `doubleToTempDiff` (TemperatureFormats.h) is
missing; a temperature difference in degrees becomes Q7.9 units, 512 per degree, rounded
to the nearest unit (half away from zero). -/
def doubleToTempDiff (x : ℚ) : Int :=
  if 0 ≤ x then ⌊x * 512 + 1 / 2⌋ else ⌈x * 512 - 1 / 2⌉

/-- Modelled from the spec: the macro `intToTempDiff` (TemperatureFormats.h) is missing; a
whole number of degrees becomes Q7.9 units, 512 per degree. -/
def intToTempDiff (n : Int) : Int := n * 512

/-- The initialiser of `ccDefaults` (lines 74-162), field by field. The macro `intToTemp`
(absolute temperatures; TemperatureFormats.h) is not part of the source tree and is a
parameter. -/
def ccDefaults (intToTemp : Int → Int) : ControlConstants :=
  { tempFormat := 'C'
    tempSettingMin := intToTemp 1
    tempSettingMax := intToTemp 110
    Kp := doubleToTempDiff 5.0
    Ki := doubleToTempDiff 0.25
    Kd := doubleToTempDiff 1.5
    iMaxError := doubleToTempDiff 1
    idleRangeHigh := doubleToTempDiff 0.1
    idleRangeLow := doubleToTempDiff (-0.1)
    fridgeFastFilter := 1
    fridgeSlowFilter := 4
    fridgeSlopeFilter := 3
    beerFastFilter := 3
    beerSlowFilter := 4
    beerSlopeFilter := 4
    lightAsHeater := false
    rotaryHalfSteps := 0
    pidMax := intToTempDiff 10
    heatPwmPeriod := 4
    coolPwmPeriod := 600
    fridgePwmKpHeat := intToTempDiff 20
    fridgePwmKiHeat := intToTempDiff 2
    fridgePwmKpCool := intToTempDiff 20
    fridgePwmKiCool := intToTempDiff 2
    beerPwmKpHeat := intToTempDiff 20
    beerPwmKiHeat := intToTempDiff 2 }

/-! ## Concrete constants and states used to evaluate the code -/

/-- Example constants in raw Q7.9 units: settings between 1 and 30 degrees, outer gains
5, 0.25 and 1.5, `iMaxError` 1 degree, idle range 0.1 degree, `pidMax` 10 degrees, inner
gains 20 and 2. -/
def ccExample : ControlConstants :=
  { tempSettingMin := 512, tempSettingMax := 15360, Kp := 2560, Ki := 128, Kd := 768,
    iMaxError := 512, idleRangeHigh := 51, idleRangeLow := -51, pidMax := 5120,
    heatPwmPeriod := 4, coolPwmPeriod := 600,
    fridgePwmKpHeat := 10240, fridgePwmKiHeat := 1024,
    fridgePwmKpCool := 10240, fridgePwmKiCool := 1024,
    beerPwmKpHeat := 10240, beerPwmKiHeat := 1024 }

/-- Beer-constant mode with the beer setting at -12 degrees, 13 degrees below
`tempSettingMin`. -/
def coldBeerState : TempControl :=
  { cc := ccExample, cs := { mode := MODE_BEER_CONSTANT, beerSetting := -6144 } }

/-- Readings for `coldBeerState`: the beer is at its setting, the slope is zero. -/
def coldBeerInputs : Inputs := { beerSlowFiltered := -6144, fridgeFastFiltered := -6144 }

/-- Beer-constant mode with the beer setting at 20 degrees, idle, empty integrator. -/
def beerState : TempControl :=
  { cc := ccExample, cs := { mode := MODE_BEER_CONSTANT, beerSetting := 10240,
                             fridgeSetting := 10240 } }

/-- Readings for `beerState`: beer at 19.5 degrees, fridge at 20 degrees. -/
def beerInputs : Inputs := { beerSlowFiltered := 9984, fridgeFastFiltered := 10240 }

/-! ## Predicates the theorems are stated with -/

/-- The setting limits are ordered, `pidMax` is not negative, and the beer setting lies
within `pidMax` of the legal range; the three `temperature`s fit 16 bits. -/
def beerSettingNearRange (s : TempControl) : Prop :=
  0 ≤ s.cc.pidMax ∧ s.cc.tempSettingMin ≤ s.cc.tempSettingMax
    ∧ s.cc.tempSettingMin - s.cc.pidMax ≤ s.cs.beerSetting
    ∧ s.cs.beerSetting ≤ s.cc.tempSettingMax + s.cc.pidMax
    ∧ isInt16 s.cc.tempSettingMin ∧ isInt16 s.cc.tempSettingMax ∧ isInt16 s.cs.beerSetting

instance (s : TempControl) : Decidable (beerSettingNearRange s) := by
  unfold beerSettingNearRange; infer_instance

/-- The invariant on the fridge setting: it is `DISABLED_TEMP` or lies between
`tempSettingMin` and `tempSettingMax`. -/
def fridgeSettingLegal (F : TempFormats) (s : TempControl) : Prop :=
  s.cs.fridgeSetting = F.DISABLED_TEMP
    ∨ (s.cc.tempSettingMin ≤ s.cs.fridgeSetting ∧ s.cs.fridgeSetting ≤ s.cc.tempSettingMax)

instance (F : TempFormats) (s : TempControl) : Decidable (fridgeSettingLegal F s) := by
  unfold fridgeSettingLegal; infer_instance

/-- Whenever `updatePID` would reach its clamp (beer mode, valid beer setting), the beer
setting lies within `pidMax` of the legal range. -/
def clampReachedNearRange (F : TempFormats) (s : TempControl) : Prop :=
  modeIsBeer s = true → isDisabledOrInvalid F s.cs.beerSetting = false → beerSettingNearRange s

instance (F : TempFormats) (s : TempControl) : Decidable (clampReachedNearRange F s) := by
  unfold clampReachedNearRange; infer_instance

/-- The controller with `cs.beerSetting` replaced, as `setBeerTemp` does first. -/
def withBeerSetting (newTemp : Int) (s : TempControl) : TempControl :=
  { s with cs := { s.cs with beerSetting := newTemp } }

/-- The controller with `cs.fridgeSetting` replaced, as `setFridgeTemp` does first. -/
def withFridgeSetting (newTemp : Int) (s : TempControl) : TempControl :=
  { s with cs := { s.cs with fridgeSetting := newTemp } }

/-- Execution of `updatePID` reaches the integrator update (lines 262-308): beer mode,
valid beer setting, and the counter test succeeds. -/
def integratorStepRuns (F : TempFormats) (s : TempControl) : Bool :=
  modeIsBeer s && !isDisabledOrInvalid F s.cs.beerSetting && cadenceHit s

/-- Consecutive `updatePID` invocations, one per element of the list of readings. -/
def runPID (F : TempFormats) : List Inputs → TempControl → TempControl
  | [], s => s
  | inp :: rest, s => runPID F rest (updatePID F inp s)

/-- Fridge-constant mode, fridge setting 4 degrees, idle. -/
def fridgeState : TempControl :=
  { cc := ccExample, cs := { mode := MODE_FRIDGE_CONSTANT, beerSetting := -32767,
                             fridgeSetting := 2048 } }

/-- Readings for `fridgeState`: fridge at 4 degrees. -/
def fridgeInputs : Inputs := { fridgeFastFiltered := 2048 }

/-- The two PWM duties are not both above zero. -/
def notBothDriven (s : TempControl) : Prop := ¬ (0 < s.heaterPwm ∧ 0 < s.coolerPwm)

instance (s : TempControl) : Decidable (notBothDriven s) := by
  unfold notBothDriven; infer_instance

/-- Test mode with a heater duty of 100 left over from before the mode was entered. -/
def testState : TempControl :=
  { cc := ccExample, cs := { mode := MODE_TEST, beerSetting := -32767, fridgeSetting := 2048 },
    heaterPwm := 100 }

/-- Readings with the fridge sensor disconnected. -/
def disconnectedInputs : Inputs := { fridgeConnected := false }

/-- Readings for `fridgeState` with the fridge at 10 degrees, 6 above the setting. -/
def warmFridgeInputs : Inputs := { fridgeFastFiltered := 5120 }

/-- Readings for `fridgeState` with the fridge at 1 degree, 3 below the setting. -/
def coldFridgeInputs : Inputs := { fridgeFastFiltered := 512 }

/-- Beer-constant mode, cooling, both settings at 20 degrees. -/
def coolingBeerState : TempControl := { beerState with state := COOLING }

/-- Fridge-constant mode at 4 degrees, cooling, with the inner integrator wound down to
-2400000 (what clamped errors of -1 degree add up to in about 78 minutes). -/
def saturatedCoolingState : TempControl :=
  { fridgeState with state := COOLING, fridgeIntegrator := -2400000 }

/-- Readings for `saturatedCoolingState`: the fridge is 4000 units (7.8 degrees) above the
setting. -/
def hotFridgeInputs : Inputs := { fridgeFastFiltered := 6048 }

/-- The 16-bit `temperature` limits are honoured by the two saturation constants:
`MIN_TEMP` is not positive and not below -32768, `MAX_TEMP` is not negative and not above
32767. -/
def saturationFits (F : TempFormats) : Prop :=
  -32768 ≤ F.MIN_TEMP ∧ F.MIN_TEMP ≤ 0 ∧ 0 ≤ F.MAX_TEMP ∧ F.MAX_TEMP ≤ 32767

instance (F : TempFormats) : Decidable (saturationFits F) := by
  unfold saturationFits; infer_instance

/-- The `cv.beerDiff` that `updatePID` computes on line 255: the difference of the beer
setting and the slow-filtered beer reading, narrowed to a `temperature`. -/
def newBeerDiff (inp : Inputs) (s : TempControl) : Int :=
  wrap16 (s.cs.beerSetting - inp.beerSlowFiltered)

/-- The sign as lines 276-277 take it: `true` for a positive value, `false` otherwise
(the source comments `1 = positive, 0 = negative`). -/
def signIsPositive (x : Int) : Bool := decide (x > 0)

/-- At least one of the six saturation conditions of lines 283-294 holds, in the wording
of the spec: the fridge setting is at a limit, or `pidMax` away from the beer setting, or
the fridge is more than 2 degrees (1024 units) off the fridge setting on the side the
update pushes to. -/
def saturated (s : TempControl) (beerDiff fridgeFastFiltered : Int) : Prop :=
  s.cs.fridgeSetting ≥ s.cc.tempSettingMax ∨ s.cs.fridgeSetting ≤ s.cc.tempSettingMin
    ∨ s.cs.fridgeSetting - s.cs.beerSetting ≥ s.cc.pidMax
    ∨ s.cs.beerSetting - s.cs.fridgeSetting ≥ s.cc.pidMax
    ∨ (beerDiff < 0 ∧ fridgeFastFiltered > s.cs.fridgeSetting + 1024)
    ∨ (beerDiff > 0 ∧ fridgeFastFiltered < s.cs.fridgeSetting - 1024)

instance (s : TempControl) (b f : Int) : Decidable (saturated s b f) := by
  unfold saturated; infer_instance

/-- Fridge-constant mode at 4 degrees with the state still off, as after `init`, a first
tick in mode off and `loadSettings`. -/
def offStateFridgeMode : TempControl := { fridgeState with state := STATE_OFF }

/-- Readings with the fridge at 10 degrees and no cooler installed. -/
def noCoolerInputs : Inputs :=
  { fridgeFastFiltered := 5120, coolerInstalled := false, seconds := 500 }

/-- Fridge-constant mode at 4 degrees, cooling, last cooled at second 100. -/
def coolingFridgeState : TempControl :=
  { fridgeState with state := COOLING, lastCoolTime := 100 }

/-- Readings with the fridge at 10 degrees, the cooler installed, the clock at 500 s. -/
def laterWarmInputs : Inputs := { fridgeFastFiltered := 5120, seconds := 500 }

/-- Fridge-constant mode, heating, fridge setting 4 degrees. -/
def heatingFridgeState : TempControl := { fridgeState with state := HEATING }

/-- Beer-constant mode at 20 degrees, idle, the counter at 60 and the integrator at
320000 units (625 degrees), with a small `Ki` of 8 units. -/
def woundUpState : TempControl :=
  { cc := { ccExample with Ki := 8 },
    cs := { mode := MODE_BEER_CONSTANT, beerSetting := 10240, fridgeSetting := 10240 },
    cv := { diffIntegral := 320000 }, integralUpdateCounter := 60 }

/-- Readings for `woundUpState`: the beer is at 18 degrees, 2 degrees below its setting. -/
def coolBeerInputs : Inputs := { beerSlowFiltered := 9216, fridgeFastFiltered := 10240 }

/-- The example beer controller with the counter at 60, so that the next `updatePID` runs
the integrator update. -/
def cadenceState : TempControl := { beerState with integralUpdateCounter := 60 }

/-- Beer-constant mode with the beer setting disabled. -/
def disabledBeerState : TempControl :=
  { cc := ccExample, cs := { mode := MODE_BEER_CONSTANT, beerSetting := -32767,
                             fridgeSetting := 10240 },
    state := COOLING, cv := { beerDiff := 7, diffIntegral := 9 }, integralUpdateCounter := 12 }

/-- Mode off with a fridge setting of 4 degrees, as `setFridgeTemp` leaves it in mode off. -/
def offModeState : TempControl :=
  { cc := ccExample, cs := { mode := MODE_OFF, beerSetting := -32767, fridgeSetting := 2048 } }

/-- The fridge setpoint is saturated: the fridge setting is at a limit or `pidMax` away
from the beer setting (the first four conditions of lines 283-286). -/
def setpointSaturated (s : TempControl) : Prop :=
  s.cs.fridgeSetting ≥ s.cc.tempSettingMax ∨ s.cs.fridgeSetting ≤ s.cc.tempSettingMin
    ∨ iabs (s.cs.fridgeSetting - s.cs.beerSetting) ≥ s.cc.pidMax

instance (s : TempControl) : Decidable (setpointSaturated s) := by
  unfold setpointSaturated; infer_instance

/-- The example beer controller on a cadence invocation with the fridge setting at
`tempSettingMax` (30 degrees) and a small negative integrator of -100. -/
def saturatedSmallIntegral : TempControl :=
  { cadenceState with cs := { cadenceState.cs with fridgeSetting := 15360 },
                      cv := { diffIntegral := -100 } }

/-- As `saturatedSmallIntegral`, with an empty integrator. -/
def saturatedEmptyIntegral : TempControl :=
  { cadenceState with cs := { cadenceState.cs with fridgeSetting := 15360 } }

/-- As `saturatedSmallIntegral`, with an integrator of -1000. -/
def saturatedLargeIntegral : TempControl :=
  { cadenceState with cs := { cadenceState.cs with fridgeSetting := 15360 },
                      cv := { diffIntegral := -1000 } }

/-- Readings for the example beer controller with the beer half a degree above its
setting (`beerDiff` = -256). -/
def warmBeerInputs : Inputs := { beerSlowFiltered := 10496, fridgeFastFiltered := 10240 }

/-- A call of one of the member functions that write controller state. -/
inductive Call where
  | init
  | updatePID (inp : Inputs)
  | updateState (inp : Inputs)
  | updateOutputs (inp : Inputs)
  | setMode (newMode : Char) (force : Bool)
  | setBeerTemp (inp : Inputs) (newTemp : Int)
  | setFridgeTemp (inp : Inputs) (newTemp : Int)
  | storeSettings (offset : Nat)
  | loadSettings (offset : Nat)
  | storeConstants (offset : Nat)
  | loadConstants (offset : Nat)

/-- The controller after one call. A load from an offset where nothing was written has no
known result and leaves the controller as it is. -/
def applyCall (F : TempFormats) (c : Call) (s : TempControl) : TempControl :=
  match c with
  | Call.init => init s
  | Call.updatePID inp => updatePID F inp s
  | Call.updateState inp => updateState F inp s
  | Call.updateOutputs inp => updateOutputs F inp s
  | Call.setMode newMode force => setMode F newMode force s
  | Call.setBeerTemp inp newTemp => setBeerTemp F inp newTemp s
  | Call.setFridgeTemp inp newTemp => setFridgeTemp F inp newTemp s
  | Call.storeSettings offset => storeSettings offset s
  | Call.loadSettings offset => (loadSettings F offset s).getD s
  | Call.storeConstants offset => storeConstants offset s
  | Call.loadConstants offset => (loadConstants offset s).getD s

/-- The controller after a sequence of calls, first call first. -/
def runCalls (F : TempFormats) : List Call → TempControl → TempControl
  | [], s => s
  | c :: rest, s => runCalls F rest (applyCall F c s)

/-- The fridge-constant example controller right after `init`: idle, mode off, both
timers at 0. -/
def heatingSinceBoot : TempControl := init heatingFridgeState

/-- The cooling side of the duty scale mirrors the heating side, as the spec's word
`symmetric` for the cooling branch has it: `tempDiffToInt` rounds toward zero and
`MIN_TEMP` is not below `-MAX_TEMP`. -/
def symmetricScale (F : TempFormats) : Prop := F.toIntFloors = false ∧ -F.MAX_TEMP ≤ F.MIN_TEMP

instance (F : TempFormats) : Decidable (symmetricScale F) := by
  unfold symmetricScale; infer_instance

/-- Readings with the beer sensor lost: its slow-filtered value reads -32768, the most
negative `temperature` (what `stdFormats` takes for `INVALID_TEMP`). -/
def lostBeerInputs : Inputs :=
  { beerConnected := false, beerSlowFiltered := -32768, fridgeFastFiltered := 10240 }

/-- The call that led from `before` to `after` persisted the settings exactly once: the NV
store took one more write, the settings block of the manager (offset 0, where
`storeTempSettings` writes) holds exactly the settings now in memory, every other block
is as before, and `storedBeerSetting` is the stored beer setting. -/
def persistedOnce (before after : TempControl) : Prop :=
  after.nvWrites = before.nvWrites + 1
    ∧ after.nvSettings 0 = some after.cs
    ∧ (∀ o, o ≠ 0 → after.nvSettings o = before.nvSettings o)
    ∧ after.storedBeerSetting = after.cs.beerSetting

/-! # Theorems -/

set_option maxRecDepth 100000

/-! ## Arithmetic helpers -/

theorem wrap16_eq_self {x : Int} (h : isInt16 x) : wrap16 x = x := by
  unfold isInt16 at h
  unfold wrap16
  omega

theorem wrap32_eq_self {x : Int} (h : isInt32 x) : wrap32 x = x := by
  unfold isInt32 at h
  unfold wrap32
  omega

theorem constrainTemp_ge_lower {v lo hi : Int} (h : lo ≤ hi) : lo ≤ constrainTemp v lo hi := by
  unfold constrainTemp
  split_ifs <;> omega

theorem constrainTemp_le_upper {v lo hi : Int} (h : lo ≤ hi) : constrainTemp v lo hi ≤ hi := by
  unfold constrainTemp
  split_ifs <;> omega

/-! ## The clamp of `updatePID` -/

theorem pidLowerBound_ge (s : TempControl) (h : beerSettingNearRange s) :
    s.cc.tempSettingMin ≤ pidLowerBound s ∧ s.cs.beerSetting - s.cc.pidMax ≤ pidLowerBound s := by
  obtain ⟨h0, h1, h2, h3, h4, h5, h6⟩ := h
  unfold isInt16 at h4 h5 h6
  unfold pidLowerBound wrap16
  split_ifs <;> omega

theorem pidUpperBound_le (s : TempControl) (h : beerSettingNearRange s) :
    pidUpperBound s ≤ s.cc.tempSettingMax ∧ pidUpperBound s ≤ s.cs.beerSetting + s.cc.pidMax := by
  obtain ⟨h0, h1, h2, h3, h4, h5, h6⟩ := h
  unfold isInt16 at h4 h5 h6
  unfold pidUpperBound wrap16
  split_ifs <;> omega

theorem pidBounds_ordered (s : TempControl) (h : beerSettingNearRange s) :
    pidLowerBound s ≤ pidUpperBound s := by
  obtain ⟨h0, h1, h2, h3, h4, h5, h6⟩ := h
  unfold isInt16 at h4 h5 h6
  unfold pidLowerBound pidUpperBound wrap16
  split_ifs <;> omega

/-- In a beer mode with a valid beer setting `updatePID` leaves the beer setting alone and
assigns the clamp result to the fridge setting. -/
theorem updatePID_beer_settings (F : TempFormats) (inp : Inputs) (s : TempControl)
    (hmode : modeIsBeer s = true) (hvalid : isDisabledOrInvalid F s.cs.beerSetting = false) :
    (updatePID F inp s).cs.beerSetting = s.cs.beerSetting
      ∧ ∃ v, (updatePID F inp s).cs.fridgeSetting
          = constrainTemp v (pidLowerBound s) (pidUpperBound s) := by
  unfold updatePID
  simp only [hmode, hvalid, if_true]
  exact ⟨rfl, _, rfl⟩

/-! ## C1 -/

/-- C1 (as stated) fails: beer-constant mode, beer setting -12 degrees (valid), the example
constants (`tempSettingMin` 1 degree, `pidMax` 10 degrees). `updatePID` clamps the fridge
setting up to `tempSettingMin`, 13 degrees above the beer setting. -/
theorem updatePID_pidMax_counterexample :
    modeIsBeer coldBeerState = true
      ∧ isDisabledOrInvalid stdFormats coldBeerState.cs.beerSetting = false
      ∧ (updatePID stdFormats coldBeerInputs coldBeerState).cs.fridgeSetting = 512
      ∧ (updatePID stdFormats coldBeerInputs coldBeerState).cs.beerSetting = -6144
      ∧ ¬ (iabs ((updatePID stdFormats coldBeerInputs coldBeerState).cs.fridgeSetting
                - (updatePID stdFormats coldBeerInputs coldBeerState).cs.beerSetting)
            ≤ coldBeerState.cc.pidMax) := by
  decide

/-- C1 (amended): in a beer mode with a valid beer setting that lies within `pidMax` of the
range from `tempSettingMin` to `tempSettingMax` (limits ordered, `pidMax` not negative),
after `updatePID` the fridge setting is at most `pidMax` away from the beer setting, for
every sensor reading. -/
theorem updatePID_fridgeSetting_within_pidMax (F : TempFormats) (inp : Inputs)
    (s : TempControl) (hmode : modeIsBeer s = true)
    (hvalid : isDisabledOrInvalid F s.cs.beerSetting = false)
    (hrange : beerSettingNearRange s) :
    iabs ((updatePID F inp s).cs.fridgeSetting - (updatePID F inp s).cs.beerSetting)
      ≤ s.cc.pidMax := by
  obtain ⟨hb, v, hv⟩ := updatePID_beer_settings F inp s hmode hvalid
  have hord := pidBounds_ordered s hrange
  have hlo := constrainTemp_ge_lower (v := v) hord
  have hhi := constrainTemp_le_upper (v := v) hord
  have h1 := (pidLowerBound_ge s hrange).2
  have h2 := (pidUpperBound_le s hrange).2
  rw [hb, hv]
  unfold iabs
  split_ifs <;> omega

/-- C1 (amended), applied: beer setting 20 degrees with the example constants. -/
theorem updatePID_fridgeSetting_within_pidMax_witness :
    modeIsBeer beerState = true ∧ isDisabledOrInvalid stdFormats beerState.cs.beerSetting = false
      ∧ beerSettingNearRange beerState
      ∧ iabs ((updatePID stdFormats beerInputs beerState).cs.fridgeSetting
              - (updatePID stdFormats beerInputs beerState).cs.beerSetting)
          ≤ beerState.cc.pidMax :=
  ⟨by decide, by decide, by decide,
   updatePID_fridgeSetting_within_pidMax stdFormats beerInputs beerState
     (by decide) (by decide) (by decide)⟩

/-! ## Frame lemmas: which fields each function leaves alone -/

theorem storeTempSettings_cs (s : TempControl) : (storeTempSettings s).cs = s.cs := rfl

theorem storeTempSettings_cc (s : TempControl) : (storeTempSettings s).cc = s.cc := rfl

theorem dispatchState_cs (inp : Inputs) (stay : Bool) (st : states) (s : TempControl) :
    (dispatchState inp stay st s).cs = s.cs := by
  cases st <;> simp only [dispatchState] <;> split_ifs <;> rfl

theorem dispatchState_cc (inp : Inputs) (stay : Bool) (st : states) (s : TempControl) :
    (dispatchState inp stay st s).cc = s.cc := by
  cases st <;> simp only [dispatchState] <;> split_ifs <;> rfl

theorem updateDoor_cs (inp : Inputs) (s : TempControl) : (updateDoor inp s).cs = s.cs := by
  unfold updateDoor
  split_ifs <;> rfl

theorem updateDoor_cc (inp : Inputs) (s : TempControl) : (updateDoor inp s).cc = s.cc := by
  unfold updateDoor
  split_ifs <;> rfl

theorem updateState_cs (F : TempFormats) (inp : Inputs) (s : TempControl) :
    (updateState F inp s).cs = s.cs := by
  unfold updateState
  simp only [dispatchState_cs, updateDoor_cs]

theorem updateState_cc (F : TempFormats) (inp : Inputs) (s : TempControl) :
    (updateState F inp s).cc = s.cc := by
  unfold updateState
  simp only [dispatchState_cc, updateDoor_cc]

theorem updatePID_cc (F : TempFormats) (inp : Inputs) (s : TempControl) :
    (updatePID F inp s).cc = s.cc := by
  unfold updatePID
  split_ifs <;> rfl

theorem updatePID_mode (F : TempFormats) (inp : Inputs) (s : TempControl) :
    (updatePID F inp s).cs.mode = s.cs.mode := by
  unfold updatePID
  split_ifs <;> rfl

theorem setMode_cc (F : TempFormats) (newMode : Char) (force : Bool) (s : TempControl) :
    (setMode F newMode force s).cc = s.cc := by
  unfold setMode storeTempSettings storeSettings
  dsimp only
  split_ifs <;> rfl

theorem setMode_fridgeSetting (F : TempFormats) (newMode : Char) (force : Bool)
    (s : TempControl) :
    (setMode F newMode force s).cs.fridgeSetting = s.cs.fridgeSetting
      ∨ (setMode F newMode force s).cs.fridgeSetting = F.DISABLED_TEMP := by
  unfold setMode storeTempSettings storeSettings
  dsimp only
  split_ifs
  all_goals first
    | exact Or.inl rfl
    | exact Or.inr rfl

/-- A predicate on the fridge setting and the constants only. -/
theorem fridgeSettingLegal_congr (F : TempFormats) {s t : TempControl}
    (hcs : t.cs.fridgeSetting = s.cs.fridgeSetting) (hcc : t.cc = s.cc) :
    fridgeSettingLegal F t ↔ fridgeSettingLegal F s := by
  unfold fridgeSettingLegal
  rw [hcs, hcc]

/-- `updatePID` keeps the fridge setting legal (and makes it legal in a beer mode) as long
as the clamp bounds are ordered when the clamp is reached. -/
theorem updatePID_fridgeSettingLegal (F : TempFormats) (inp : Inputs) (s : TempControl)
    (hclamp : clampReachedNearRange F s)
    (h : modeIsBeer s = false → fridgeSettingLegal F s) :
    fridgeSettingLegal F (updatePID F inp s) := by
  by_cases hmode : modeIsBeer s = true
  · by_cases hvalid : isDisabledOrInvalid F s.cs.beerSetting = true
    · left
      unfold updatePID
      simp only [hmode, hvalid, if_true]
    · have hvalid2 : isDisabledOrInvalid F s.cs.beerSetting = false := by
        simpa using hvalid
      have hrange := hclamp hmode hvalid2
      obtain ⟨_, v, hv⟩ := updatePID_beer_settings F inp s hmode hvalid2
      have hord := pidBounds_ordered s hrange
      have hlo := constrainTemp_ge_lower (v := v) hord
      have hhi := constrainTemp_le_upper (v := v) hord
      have h1 := (pidLowerBound_ge s hrange).1
      have h2 := (pidUpperBound_le s hrange).1
      right
      rw [updatePID_cc, hv]
      constructor <;> omega
  · have hmode2 : modeIsBeer s = false := by simpa using hmode
    have hfs : (updatePID F inp s).cs.fridgeSetting = s.cs.fridgeSetting := by
      unfold updatePID
      simp only [hmode2, Bool.false_eq_true, if_false]
      split_ifs <;> rfl
    exact (fridgeSettingLegal_congr F hfs (updatePID_cc F inp s)).2 (h hmode2)

/-! ## C2 -/

/-- C2 (as stated) fails: fridge-constant mode with a legal fridge setting of 4 degrees;
`setFridgeTemp(40 degrees)` stores 40 degrees, above `tempSettingMax` (30 degrees) and not
`DISABLED_TEMP`. -/
theorem setFridgeTemp_fridgeSettingLegal_counterexample :
    fridgeSettingLegal stdFormats fridgeState
      ∧ (setFridgeTemp stdFormats fridgeInputs 20480 fridgeState).cs.fridgeSetting = 20480
      ∧ ¬ fridgeSettingLegal stdFormats (setFridgeTemp stdFormats fridgeInputs 20480 fridgeState) := by
  decide

/-- C2 (amended): the predicate `fridgeSetting = DISABLED_TEMP or tempSettingMin <=
fridgeSetting <= tempSettingMax` is preserved by `setMode` always; by `updatePID` and
`setBeerTemp` provided that, when the clamp is reached (beer mode, valid beer setting), the
beer setting in force lies within `pidMax` of the legal range; and by `setFridgeTemp` under
the same proviso and, outside the beer modes, only for a `newTemp` that is itself
`DISABLED_TEMP` or within the legal range. -/
theorem fridgeSettingLegal_preserved (F : TempFormats) (inp : Inputs) (s : TempControl)
    (newMode : Char) (force : Bool) (newTemp : Int) (h : fridgeSettingLegal F s) :
    fridgeSettingLegal F (setMode F newMode force s)
      ∧ (clampReachedNearRange F s → fridgeSettingLegal F (updatePID F inp s))
      ∧ (clampReachedNearRange F (withBeerSetting newTemp s) →
          fridgeSettingLegal F (setBeerTemp F inp newTemp s))
      ∧ (clampReachedNearRange F s →
          (modeIsBeer s = false → fridgeSettingLegal F (withFridgeSetting newTemp s)) →
          fridgeSettingLegal F (setFridgeTemp F inp newTemp s)) := by
  refine ⟨?_, ?_, ?_, ?_⟩
  · rcases setMode_fridgeSetting F newMode force s with hfs | hfs
    · exact (fridgeSettingLegal_congr F hfs (setMode_cc F newMode force s)).2 h
    · exact Or.inl hfs
  · intro hclamp
    exact updatePID_fridgeSettingLegal F inp s hclamp (fun _ => h)
  · intro hclamp
    have hpid : fridgeSettingLegal F (updatePID F inp (withBeerSetting newTemp s)) :=
      updatePID_fridgeSettingLegal F inp _ hclamp (fun _ => h)
    have hst : fridgeSettingLegal F (updateState F inp (updatePID F inp (withBeerSetting newTemp s))) :=
      (fridgeSettingLegal_congr F (by rw [updateState_cs]) (updateState_cc F inp _)).2 hpid
    unfold setBeerTemp
    simp only []
    split_ifs
    · exact hst
    · exact hst
  · intro hclamp hnew
    have hclamp2 : clampReachedNearRange F (withFridgeSetting newTemp s) := hclamp
    have hpid : fridgeSettingLegal F (updatePID F inp (withFridgeSetting newTemp s)) :=
      updatePID_fridgeSettingLegal F inp _ hclamp2 hnew
    exact (fridgeSettingLegal_congr F (by rw [updateState_cs]) (updateState_cc F inp _)).2 hpid

/-- C2 (amended), applied: beer-constant mode, beer and fridge setting 20 degrees; new mode
fridge-constant, new beer or fridge setting 10 degrees. Every proviso holds there and the
fridge setting is legal after each of the four operations. -/
theorem fridgeSettingLegal_preserved_witness :
    fridgeSettingLegal stdFormats beerState
      ∧ clampReachedNearRange stdFormats beerState
      ∧ clampReachedNearRange stdFormats (withBeerSetting 5120 beerState)
      ∧ fridgeSettingLegal stdFormats (setMode stdFormats MODE_FRIDGE_CONSTANT false beerState)
      ∧ fridgeSettingLegal stdFormats (updatePID stdFormats beerInputs beerState)
      ∧ fridgeSettingLegal stdFormats (setBeerTemp stdFormats beerInputs 5120 beerState)
      ∧ fridgeSettingLegal stdFormats (setFridgeTemp stdFormats beerInputs 5120 beerState) :=
  have h := fridgeSettingLegal_preserved stdFormats beerInputs beerState MODE_FRIDGE_CONSTANT
    false 5120 (by decide)
  ⟨by decide, by decide, by decide, h.1, h.2.1 (by decide), h.2.2.1 (by decide),
   h.2.2.2 (by decide) (by decide)⟩

/-! ## C3: the cadence of the integrator update -/

/-- One `updatePID` call in a beer mode with a valid beer setting keeps both, and moves the
counter from 60 to 0 and from any other value to the next one. -/
theorem updatePID_counter_step (F : TempFormats) (inp : Inputs) (s : TempControl)
    (hmode : modeIsBeer s = true) (hvalid : isDisabledOrInvalid F s.cs.beerSetting = false) :
    modeIsBeer (updatePID F inp s) = true
      ∧ isDisabledOrInvalid F (updatePID F inp s).cs.beerSetting = false
      ∧ (updatePID F inp s).integralUpdateCounter
          = if s.integralUpdateCounter = 60 then 0 else wrapU8 (s.integralUpdateCounter + 1) := by
  have hm : modeIsBeer (updatePID F inp s) = modeIsBeer s := by
    unfold modeIsBeer
    rw [updatePID_mode]
  refine ⟨by rw [hm, hmode], ?_, ?_⟩
  · rw [(updatePID_beer_settings F inp s hmode hvalid).1, hvalid]
  · unfold updatePID cadenceHit
    simp only [hmode, hvalid, if_true, beq_iff_eq]
    rfl

/-- Started with the counter at `c <= 60`, after `n` consecutive invocations in a beer mode
with a valid beer setting the counter is `(c + n) mod 61`: the counter test succeeds on
every 61st invocation. -/
theorem runPID_counter (F : TempFormats) (inps : List Inputs) (s : TempControl)
    (hmode : modeIsBeer s = true) (hvalid : isDisabledOrInvalid F s.cs.beerSetting = false)
    (hc : s.integralUpdateCounter ≤ 60) :
    (runPID F inps s).integralUpdateCounter = (s.integralUpdateCounter + inps.length) % 61 := by
  induction inps generalizing s with
  | nil =>
    simp only [runPID, List.length_nil, Nat.add_zero]
    omega
  | cons inp rest ih =>
    obtain ⟨h1, h2, h3⟩ := updatePID_counter_step F inp s hmode hvalid
    have hc2 : (updatePID F inp s).integralUpdateCounter ≤ 60 := by
      rw [h3]
      unfold wrapU8
      split_ifs <;> omega
    simp only [runPID, List.length_cons]
    rw [ih (updatePID F inp s) h1 h2 hc2, h3]
    unfold wrapU8
    split_ifs <;> omega

/-- C3: the code evaluated from the counter at 0, beer-constant mode, beer setting 20
degrees, beer at 19.5 degrees, state idle, empty integrator (an integrator update would add
2 * 256 = 512). The 60th invocation does not reach the integrator update (after 60
invocations the integrator is still 0 and the counter is 60); the 61st does. -/
theorem updatePID_cadence_is_sixty_one :
    integratorStepRuns stdFormats (runPID stdFormats (List.replicate 59 beerInputs) beerState)
        = false
      ∧ (runPID stdFormats (List.replicate 60 beerInputs) beerState).cv.diffIntegral = 0
      ∧ (runPID stdFormats (List.replicate 60 beerInputs) beerState).integralUpdateCounter = 60
      ∧ integratorStepRuns stdFormats (runPID stdFormats (List.replicate 60 beerInputs) beerState)
        = true
      ∧ (runPID stdFormats (List.replicate 61 beerInputs) beerState).cv.diffIntegral = 512
      ∧ (runPID stdFormats (List.replicate 61 beerInputs) beerState).integralUpdateCounter = 0 := by
  decide

/-! ## C4: when the integrator is left alone -/

/-- C4: `updatePID` leaves `diffIntegral` (a 32-bit value) unchanged on every invocation
that does not reach the integrator update (the counter test fails, or the mode is not a
beer mode, or the beer setting is disabled) and on every invocation entered with a state
other than idle, for every mode, setting and reading. -/
theorem updatePID_diffIntegral_unchanged (F : TempFormats) (inp : Inputs) (s : TempControl)
    (h32 : isInt32 s.cv.diffIntegral)
    (h : integratorStepRuns F s = false ∨ s.state ≠ IDLE) :
    (updatePID F inp s).cv.diffIntegral = s.cv.diffIntegral := by
  unfold updatePID
  by_cases hmode : modeIsBeer s = true
  · by_cases hvalid : isDisabledOrInvalid F s.cs.beerSetting = true
    · simp only [hmode, hvalid, if_true]
    · have hvalid2 : isDisabledOrInvalid F s.cs.beerSetting = false := by simpa using hvalid
      simp only [hmode, hvalid2, if_true, Bool.false_eq_true, if_false]
      by_cases hhit : cadenceHit s = true
      · have hst : s.state ≠ IDLE := by
          rcases h with h | h
          · simp [integratorStepRuns, hmode, hvalid2, hhit] at h
          · exact h
        have hu : ∀ d f, integratorUpdate s d f = 0 := by
          intro d f
          unfold integratorUpdate
          rw [if_pos hst]
        simp only [hhit, if_true, hu, add_zero]
        exact wrap32_eq_self h32
      · have hhit2 : cadenceHit s = false := by simpa using hhit
        simp only [hhit2, Bool.false_eq_true, if_false]
  · have hmode2 : modeIsBeer s = false := by simpa using hmode
    simp only [hmode2, Bool.false_eq_true, if_false]
    split_ifs <;> rfl

/-- C4, applied twice: a cooling controller whose counter test succeeds, and an idle
controller whose counter test fails. -/
theorem updatePID_diffIntegral_unchanged_witness :
    (updatePID stdFormats beerInputs
        { beerState with state := COOLING, integralUpdateCounter := 60,
                         cv := { diffIntegral := 700 } }).cv.diffIntegral = 700
      ∧ (updatePID stdFormats beerInputs
        { beerState with integralUpdateCounter := 59,
                         cv := { diffIntegral := 700 } }).cv.diffIntegral = 700 :=
  ⟨updatePID_diffIntegral_unchanged stdFormats beerInputs
      { beerState with state := COOLING, integralUpdateCounter := 60,
                       cv := { diffIntegral := 700 } } (by decide) (Or.inr (by decide)),
   updatePID_diffIntegral_unchanged stdFormats beerInputs
      { beerState with integralUpdateCounter := 59, cv := { diffIntegral := 700 } }
      (by decide) (Or.inl (by decide))⟩

/-! ## The state machine when it must stay idle -/

theorem updateDoor_state (inp : Inputs) (s : TempControl) :
    (updateDoor inp s).state = s.state := by
  unfold updateDoor
  split_ifs <;> rfl

theorem sensorGate_updateDoor (F : TempFormats) (inp : Inputs) (s : TempControl) :
    sensorGate F inp (updateDoor inp s) = sensorGate F inp s := by
  unfold sensorGate modeIsBeer
  rw [updateDoor_cs]

theorem stayIdle_updateDoor (F : TempFormats) (inp : Inputs) (s : TempControl) :
    stayIdle F inp (updateDoor inp s) = stayIdle F inp s := by
  unfold stayIdle
  rw [sensorGate_updateDoor, updateDoor_cs]

theorem gatedState_updateDoor (F : TempFormats) (inp : Inputs) (s : TempControl) :
    gatedState F inp (updateDoor inp s) = gatedState F inp s := by
  unfold gatedState
  rw [sensorGate_updateDoor, updateDoor_cs, updateDoor_state]

/-- With `stayIdle` set, `updateState` leaves the state the two guards chose. -/
theorem updateState_state_of_stay (F : TempFormats) (inp : Inputs) (s : TempControl)
    (hstay : stayIdle F inp s = true) :
    (updateState F inp s).state = gatedState F inp s := by
  have hg : gatedState F inp s = IDLE ∨ gatedState F inp s = STATE_OFF := by
    unfold stayIdle at hstay
    unfold gatedState
    by_cases hgate : sensorGate F inp s = true
    · left
      rw [if_pos hgate]
    · right
      have hoff : (s.cs.mode == MODE_OFF) = true := by simpa [hgate] using hstay
      rw [if_neg hgate, if_pos hoff]
  unfold updateState
  simp only [stayIdle_updateDoor, gatedState_updateDoor, hstay]
  rcases hg with hg | hg <;> rw [hg] <;> simp [dispatchState]

/-- A disconnected fridge sensor closes the second guard. -/
theorem sensorGate_of_disconnected (F : TempFormats) (inp : Inputs) (s : TempControl)
    (h : inp.fridgeConnected = false) : sensorGate F inp s = true := by
  unfold sensorGate
  simp [h]

/-- With the second guard closed the state after `updateState` is idle. -/
theorem updateState_idle_of_gate (F : TempFormats) (inp : Inputs) (s : TempControl)
    (h : sensorGate F inp s = true) : (updateState F inp s).state = IDLE := by
  have hstay : stayIdle F inp s = true := by
    unfold stayIdle
    simp [h]
  rw [updateState_state_of_stay F inp s hstay]
  unfold gatedState
  rw [if_pos h]

/-! ## `updateOutputs`: what it leaves alone and what it zeroes -/

theorem updateOutputs_state (F : TempFormats) (inp : Inputs) (s : TempControl) :
    (updateOutputs F inp s).state = s.state := by
  unfold updateOutputs
  dsimp only
  split_ifs <;> rfl

theorem updateOutputs_test (F : TempFormats) (inp : Inputs) (s : TempControl)
    (h : s.cs.mode = MODE_TEST) : updateOutputs F inp s = s := by
  unfold updateOutputs
  simp [h]

/-- Outside test mode one of the two duties is set to 0 in each branch. -/
theorem updateOutputs_one_zero (F : TempFormats) (inp : Inputs) (s : TempControl)
    (h : s.cs.mode ≠ MODE_TEST) :
    (updateOutputs F inp s).heaterPwm = 0 ∨ (updateOutputs F inp s).coolerPwm = 0 := by
  have hm : (s.cs.mode == MODE_TEST) = false := by simpa using h
  unfold updateOutputs
  simp only [hm, Bool.false_eq_true, if_false]
  split_ifs
  · exact Or.inr rfl
  · exact Or.inl rfl
  · exact Or.inl rfl

/-- Outside test mode, a state that is neither heating nor cooling zeroes both duties. -/
theorem updateOutputs_both_zero (F : TempFormats) (inp : Inputs) (s : TempControl)
    (h : s.cs.mode ≠ MODE_TEST) (hheat : s.state ≠ HEATING) (hcool : s.state ≠ COOLING) :
    (updateOutputs F inp s).heaterPwm = 0 ∧ (updateOutputs F inp s).coolerPwm = 0 := by
  have hm : (s.cs.mode == MODE_TEST) = false := by simpa using h
  have h1 : stateIsHeating s = false := by simpa [stateIsHeating] using hheat
  have h2 : stateIsCooling s = false := by simpa [stateIsCooling] using hcool
  unfold updateOutputs
  simp only [hm, h1, h2, Bool.false_eq_true, if_false]
  exact ⟨trivial, trivial⟩

theorem tick_state (F : TempFormats) (inp : Inputs) (s : TempControl) :
    (tick F inp s).state = (updateState F inp (updatePID F inp s)).state := by
  unfold tick
  rw [updateOutputs_state]

theorem tick_inner_mode (F : TempFormats) (inp : Inputs) (s : TempControl) :
    (updateState F inp (updatePID F inp s)).cs.mode = s.cs.mode := by
  rw [updateState_cs, updatePID_mode]

/-! ## C5 -/

/-- C5 (as stated) fails: test mode with a heater duty of 100, fridge sensor disconnected.
`updateOutputs` returns at once in test mode, so after the tick the heater duty is still
100. -/
theorem tick_disconnected_counterexample :
    disconnectedInputs.fridgeConnected = false
      ∧ (tick stdFormats disconnectedInputs testState).heaterPwm = 100
      ∧ ¬ (((tick stdFormats disconnectedInputs testState).state = IDLE
              ∨ (tick stdFormats disconnectedInputs testState).state = STATE_OFF)
            ∧ (tick stdFormats disconnectedInputs testState).heaterPwm = 0
            ∧ (tick stdFormats disconnectedInputs testState).coolerPwm = 0) := by
  decide

/-- C5 (amended): for every tick (`updatePID`, `updateState`, `updateOutputs`) from every
prior state, if the fridge sensor reports disconnected then afterwards the state is idle
or off (in fact idle) in every mode, and in every mode other than test both PWM duties
are 0. -/
theorem tick_fridge_disconnected (F : TempFormats) (inp : Inputs) (s : TempControl)
    (h : inp.fridgeConnected = false) :
    ((tick F inp s).state = IDLE ∨ (tick F inp s).state = STATE_OFF)
      ∧ (s.cs.mode ≠ MODE_TEST →
          (tick F inp s).heaterPwm = 0 ∧ (tick F inp s).coolerPwm = 0) := by
  have hidle : (updateState F inp (updatePID F inp s)).state = IDLE :=
    updateState_idle_of_gate F inp _ (sensorGate_of_disconnected F inp _ h)
  refine ⟨Or.inl (by rw [tick_state, hidle]), ?_⟩
  intro hmode
  unfold tick
  apply updateOutputs_both_zero
  · rw [tick_inner_mode]
    exact hmode
  · rw [hidle]
    decide
  · rw [hidle]
    decide

/-- C5 (amended), applied: a cooling controller in beer-constant mode loses its fridge
sensor. -/
theorem tick_fridge_disconnected_witness :
    disconnectedInputs.fridgeConnected = false
      ∧ coolingBeerState.cs.mode ≠ MODE_TEST
      ∧ ((tick stdFormats disconnectedInputs coolingBeerState).state = IDLE
          ∨ (tick stdFormats disconnectedInputs coolingBeerState).state = STATE_OFF)
      ∧ (tick stdFormats disconnectedInputs coolingBeerState).heaterPwm = 0
      ∧ (tick stdFormats disconnectedInputs coolingBeerState).coolerPwm = 0 :=
  have h := tick_fridge_disconnected stdFormats disconnectedInputs coolingBeerState (by decide)
  ⟨by decide, by decide, h.1, (h.2 (by decide)).1, (h.2 (by decide)).2⟩

/-! ## C6 -/

/-- C6: `heater duty and cooler duty are not both above 0` is an invariant of
`updateOutputs`: it holds after every call made from a state where it holds, and in
every mode other than test it holds after the call whatever the prior duties were. -/
theorem updateOutputs_notBothDriven (F : TempFormats) (inp : Inputs) (s : TempControl) :
    (notBothDriven s → notBothDriven (updateOutputs F inp s))
      ∧ (s.cs.mode ≠ MODE_TEST → notBothDriven (updateOutputs F inp s)) := by
  have hgen : s.cs.mode ≠ MODE_TEST → notBothDriven (updateOutputs F inp s) := by
    intro hmode
    unfold notBothDriven
    rcases updateOutputs_one_zero F inp s hmode with h0 | h0 <;> rw [h0] <;> simp
  refine ⟨?_, hgen⟩
  intro hprev
  by_cases hmode : s.cs.mode = MODE_TEST
  · rw [updateOutputs_test F inp s hmode]
    exact hprev
  · exact hgen hmode

/-- C6, applied: test mode with only the heater driven, and a cooling controller whose two
duties were both 100 before the call. -/
theorem updateOutputs_notBothDriven_witness :
    notBothDriven testState
      ∧ notBothDriven (updateOutputs stdFormats fridgeInputs testState)
      ∧ ¬ notBothDriven { coolingBeerState with heaterPwm := 100, coolerPwm := 100 }
      ∧ ({ coolingBeerState with heaterPwm := 100, coolerPwm := 100 } : TempControl).cs.mode
          ≠ MODE_TEST
      ∧ notBothDriven (updateOutputs stdFormats warmFridgeInputs
          { coolingBeerState with heaterPwm := 100, coolerPwm := 100 }) :=
  ⟨by decide,
   (updateOutputs_notBothDriven stdFormats fridgeInputs testState).1 (by decide),
   by decide, by decide,
   (updateOutputs_notBothDriven stdFormats warmFridgeInputs
      { coolingBeerState with heaterPwm := 100, coolerPwm := 100 }).2 (by decide)⟩

/-! ## C7: entering cooling or heating -/

/-- The `switch` ends in cooling only with the cooler installed. -/
theorem dispatchState_cooling (inp : Inputs) (stay : Bool) (st : states) (s : TempControl)
    (h : (dispatchState inp stay st s).state = COOLING) : inp.coolerInstalled = true := by
  cases st <;> simp only [dispatchState] at h <;> (try split_ifs at h) <;> simp_all

/-- The `switch` ends in heating only with the heater installed, or with the light
installed and used as heater. -/
theorem dispatchState_heating (inp : Inputs) (stay : Bool) (st : states) (s : TempControl)
    (h : (dispatchState inp stay st s).state = HEATING) :
    inp.heaterInstalled = true ∨ (s.cc.lightAsHeater = true ∧ inp.lightInstalled = true) := by
  cases st <;> simp only [dispatchState] at h <;> (try split_ifs at h) <;> simp_all

/-- C7: for every `updateState` call, if the state before is not cooling and the state
after is cooling then the chamber cooler is installed; if the state before is not heating
and the state after is heating then the chamber heater is installed, or `lightAsHeater` is
set and the light is installed. -/
theorem updateState_entry_needs_actuator (F : TempFormats) (inp : Inputs) (s : TempControl) :
    (s.state ≠ COOLING → (updateState F inp s).state = COOLING → inp.coolerInstalled = true)
      ∧ (s.state ≠ HEATING → (updateState F inp s).state = HEATING →
          inp.heaterInstalled = true ∨ (s.cc.lightAsHeater = true ∧ inp.lightInstalled = true)) := by
  constructor
  · intro _ h
    exact dispatchState_cooling inp _ _ _ h
  · intro _ h
    have h2 := dispatchState_heating inp _ _ _ h
    rw [updateDoor_cc] at h2
    exact h2

/-- C7, applied: an idle fridge-constant controller at 4 degrees enters cooling when the
fridge reads 10 degrees and heating when it reads 1 degree; both actuators are installed. -/
theorem updateState_entry_needs_actuator_witness :
    (fridgeState.state ≠ COOLING
        ∧ (updateState stdFormats warmFridgeInputs fridgeState).state = COOLING
        ∧ warmFridgeInputs.coolerInstalled = true)
      ∧ (fridgeState.state ≠ HEATING
        ∧ (updateState stdFormats coldFridgeInputs fridgeState).state = HEATING
        ∧ (coldFridgeInputs.heaterInstalled = true
            ∨ (fridgeState.cc.lightAsHeater = true ∧ coldFridgeInputs.lightInstalled = true))) :=
  ⟨⟨by decide, by decide,
    (updateState_entry_needs_actuator stdFormats warmFridgeInputs fridgeState).1
      (by decide) (by decide)⟩,
   ⟨by decide, by decide,
    (updateState_entry_needs_actuator stdFormats coldFridgeInputs fridgeState).2
      (by decide) (by decide)⟩⟩

/-! ## C8: switching the controller off -/

theorem isDisabledOrInvalid_disabled (F : TempFormats) :
    isDisabledOrInvalid F F.DISABLED_TEMP = true := by
  simp [isDisabledOrInvalid]

/-- After `setMode(MODE_OFF)` the mode is off. -/
theorem setMode_off_mode (F : TempFormats) (force : Bool) (s : TempControl) :
    (setMode F MODE_OFF force s).cs.mode = MODE_OFF := by
  unfold setMode storeTempSettings storeSettings
  dsimp only
  split_ifs <;> simp_all

/-- When `setMode(MODE_OFF)` changes the mode or is forced, it disables the fridge
setting. -/
theorem setMode_off_disables (F : TempFormats) (force : Bool) (s : TempControl)
    (h : s.cs.mode ≠ MODE_OFF ∨ force = true) :
    (setMode F MODE_OFF force s).cs.fridgeSetting = F.DISABLED_TEMP := by
  unfold setMode storeTempSettings storeSettings
  dsimp only
  split_ifs <;> simp_all

/-- In mode off `updatePID` does nothing. -/
theorem updatePID_off (F : TempFormats) (inp : Inputs) (s : TempControl)
    (h : s.cs.mode = MODE_OFF) : updatePID F inp s = s := by
  have h1 : modeIsBeer s = false := by
    unfold modeIsBeer
    rw [h]
    decide
  have h2 : (s.cs.mode == MODE_FRIDGE_CONSTANT) = false := by
    rw [h]
    decide
  unfold updatePID
  simp only [h1, h2, Bool.false_eq_true, if_false]

/-- In mode off `updateState` ends idle when the second guard closes and off otherwise. -/
theorem updateState_off (F : TempFormats) (inp : Inputs) (s : TempControl)
    (h : s.cs.mode = MODE_OFF) :
    (updateState F inp s).state = if sensorGate F inp s then IDLE else STATE_OFF := by
  have hstay : stayIdle F inp s = true := by
    unfold stayIdle
    rw [h]
    simp
  rw [updateState_state_of_stay F inp s hstay]
  unfold gatedState
  rw [h]
  simp

/-- C8 (as stated) fails: a cooling controller in beer-constant mode; `setMode(MODE_OFF)`
disables the fridge setting, so the disabled-setting guard of `updateState` replaces the
off state by idle on the next tick. -/
theorem setMode_off_counterexample :
    (tick stdFormats beerInputs (setMode stdFormats MODE_OFF false coolingBeerState)).state
        = IDLE
      ∧ ¬ ((tick stdFormats beerInputs (setMode stdFormats MODE_OFF false coolingBeerState)).state
            = STATE_OFF
          ∧ (tick stdFormats beerInputs (setMode stdFormats MODE_OFF false coolingBeerState)).heaterPwm
            = 0
          ∧ (tick stdFormats beerInputs (setMode stdFormats MODE_OFF false coolingBeerState)).coolerPwm
            = 0) := by
  decide

/-- C8 (amended): from every controller state and every prior mode, `setMode(MODE_OFF)`
followed by one tick leaves both PWM duties at 0 and the state idle or off; the state is
idle, not off, whenever the call changed the mode or was forced, since it then disables
the fridge setting. -/
theorem setMode_off_then_tick (F : TempFormats) (inp : Inputs) (force : Bool)
    (s : TempControl) :
    (tick F inp (setMode F MODE_OFF force s)).heaterPwm = 0
      ∧ (tick F inp (setMode F MODE_OFF force s)).coolerPwm = 0
      ∧ ((tick F inp (setMode F MODE_OFF force s)).state = IDLE
          ∨ (tick F inp (setMode F MODE_OFF force s)).state = STATE_OFF)
      ∧ (s.cs.mode ≠ MODE_OFF ∨ force = true →
          (tick F inp (setMode F MODE_OFF force s)).state = IDLE) := by
  have hmode := setMode_off_mode F force s
  have hst := updateState_off F inp (setMode F MODE_OFF force s) hmode
  have hmode2 : (updateState F inp (setMode F MODE_OFF force s)).cs.mode ≠ MODE_TEST := by
    rw [updateState_cs, hmode]
    decide
  have hstate : (updateState F inp (setMode F MODE_OFF force s)).state = IDLE
      ∨ (updateState F inp (setMode F MODE_OFF force s)).state = STATE_OFF := by
    rw [hst]
    split_ifs
    · exact Or.inl rfl
    · exact Or.inr rfl
  have hzero := updateOutputs_both_zero F inp (updateState F inp (setMode F MODE_OFF force s))
    hmode2 (by rcases hstate with h | h <;> rw [h] <;> decide)
    (by rcases hstate with h | h <;> rw [h] <;> decide)
  unfold tick
  rw [updatePID_off F inp _ hmode, updateOutputs_state]
  refine ⟨hzero.1, hzero.2, hstate, ?_⟩
  intro hch
  have hgate : sensorGate F inp (setMode F MODE_OFF force s) = true := by
    unfold sensorGate
    rw [setMode_off_disables F force s hch, isDisabledOrInvalid_disabled]
    rfl
  rw [hst, if_pos hgate]

/-- C8 (amended), applied: a cooling controller in beer-constant mode is switched off. -/
theorem setMode_off_then_tick_witness :
    (coolingBeerState.cs.mode ≠ MODE_OFF ∨ false = true)
      ∧ (tick stdFormats beerInputs (setMode stdFormats MODE_OFF false coolingBeerState)).heaterPwm
          = 0
      ∧ (tick stdFormats beerInputs (setMode stdFormats MODE_OFF false coolingBeerState)).coolerPwm
          = 0
      ∧ (tick stdFormats beerInputs (setMode stdFormats MODE_OFF false coolingBeerState)).state
          = IDLE :=
  have h := setMode_off_then_tick stdFormats beerInputs false coolingBeerState
  ⟨Or.inl (by decide), h.1, h.2.1, h.2.2.2 (Or.inl (by decide))⟩

/-! ## C9: the inner integrator while cooling -/

/-- While cooling (outside test mode) the inner integrator receives the clamped error
only: the anti-windup term computed in the cooling branch never reaches line 510. -/
theorem updateOutputs_cooling_integrator (F : TempFormats) (inp : Inputs) (s : TempControl)
    (hmode : s.cs.mode ≠ MODE_TEST) (hcool : s.state = COOLING) :
    (updateOutputs F inp s).fridgeIntegrator
      = wrap32 (s.fridgeIntegrator + fridgeErrorForIntegral inp s) := by
  have hm : (s.cs.mode == MODE_TEST) = false := by simpa using hmode
  have h1 : stateIsHeating s = false := by
    unfold stateIsHeating
    rw [hcool]
    decide
  have h2 : stateIsCooling s = true := by
    unfold stateIsCooling
    rw [hcool]
    decide
  have h3 : antiWindup F inp s = 0 := by
    unfold antiWindup
    simp only [h1, Bool.false_eq_true, if_false]
  unfold updateOutputs
  simp only [hm, h1, h2, h3, Bool.false_eq_true, if_false, if_true, add_zero]

/-- C9: the code evaluated in fridge-constant mode, state cooling, fridge setting 4
degrees, fridge 4000 units warmer, `fridgeIntegrator` = -2400000, inner gains 20 and 2.
Then `dutyLong` = -40000 and `dutyConstrained` = `MIN_TEMP` = -32767, so the claimed
back-calculation term is 7233 and the claimed new integrator -2393279; `updateOutputs`
stores -2400512, the old value plus the clamped error alone. -/
theorem updateOutputs_cooling_antiWindup_lost :
    saturatedCoolingState.cs.mode ≠ MODE_TEST
      ∧ saturatedCoolingState.state = COOLING
      ∧ fridgeErrorForIntegral hotFridgeInputs saturatedCoolingState = -512
      ∧ dutyLongCool stdFormats hotFridgeInputs saturatedCoolingState = -40000
      ∧ constrainTemp (dutyLongCool stdFormats hotFridgeInputs saturatedCoolingState)
          stdFormats.MIN_TEMP 0 = -32767
      ∧ saturatedCoolingState.fridgeIntegrator
          + fridgeErrorForIntegral hotFridgeInputs saturatedCoolingState
          + max 0 (constrainTemp (dutyLongCool stdFormats hotFridgeInputs saturatedCoolingState)
                      stdFormats.MIN_TEMP 0
                    - dutyLongCool stdFormats hotFridgeInputs saturatedCoolingState)
          = -2393279
      ∧ (updateOutputs stdFormats hotFridgeInputs saturatedCoolingState).fridgeIntegrator
          = -2400512 := by
  decide

/-! ## C10: the range of the duty -/

/-- The two ways of dropping the fraction bits, in terms of the rounded-down quotient. -/
theorem tempDiffToInt_eq (F : TempFormats) (x : Int) :
    tempDiffToInt F x
      = if F.toIntFloors = true then x / 512
        else if 0 ≤ x then x / 512 else -((-x) / 512) := by
  unfold tempDiffToInt
  by_cases hf : F.toIntFloors = true
  · simp only [hf, if_true]
  · simp only [hf, Bool.false_eq_true, if_false]
    by_cases hx : 0 ≤ x
    · rw [if_pos hx]
      exact Int.tdiv_eq_ediv hx (by decide)
    · rw [if_neg hx]
      have hx2 : 0 ≤ -x := by omega
      have h := Int.tdiv_eq_ediv hx2 (show (0 : Int) ≤ 512 by decide)
      rw [Int.neg_tdiv] at h
      omega

/-- The duty handed to the heater lies in 0..255, however `tempDiffToInt` rounds. -/
theorem heatDuty_range (F : TempFormats) (inp : Inputs) (s : TempControl)
    (hF : saturationFits F) : 0 ≤ heatDuty F inp s ∧ heatDuty F inp s ≤ 255 := by
  obtain ⟨_, _, h3, h4⟩ := hF
  have hlo := constrainTemp_ge_lower (v := dutyLongHeat F inp s) h3
  have hhi := constrainTemp_le_upper (v := dutyLongHeat F inp s) h3
  unfold heatDuty wrapU16
  rw [tempDiffToInt_eq]
  split_ifs <;> omega

/-- The duty handed to the cooler lies in 0..256, however `tempDiffToInt` rounds. -/
theorem coolDuty_range (F : TempFormats) (inp : Inputs) (s : TempControl)
    (hF : saturationFits F) : 0 ≤ coolDuty F inp s ∧ coolDuty F inp s ≤ 256 := by
  obtain ⟨h1, h2, _, _⟩ := hF
  have hlo := constrainTemp_ge_lower (v := dutyLongCool F inp s) h2
  have hhi := constrainTemp_le_upper (v := dutyLongCool F inp s) h2
  unfold coolDuty wrapU16
  rw [tempDiffToInt_eq]
  split_ifs <;> omega

/-- With a symmetric scale the duty handed to the cooler lies in 0..255. -/
theorem coolDuty_range_symmetric (F : TempFormats) (inp : Inputs) (s : TempControl)
    (hF : saturationFits F) (hsym : symmetricScale F) :
    0 ≤ coolDuty F inp s ∧ coolDuty F inp s ≤ 255 := by
  obtain ⟨h1, h2, h3, h4⟩ := hF
  obtain ⟨hs1, hs2⟩ := hsym
  have hlo := constrainTemp_ge_lower (v := dutyLongCool F inp s) h2
  have hhi := constrainTemp_le_upper (v := dutyLongCool F inp s) h2
  unfold coolDuty wrapU16
  rw [tempDiffToInt_eq]
  simp only [hs1, Bool.false_eq_true, if_false]
  split_ifs <;> omega

/-- While heating (outside test mode) the heater receives `heatDuty`; while cooling the
cooler receives `coolDuty`. -/
theorem updateOutputs_duty (F : TempFormats) (inp : Inputs) (s : TempControl)
    (hmode : s.cs.mode ≠ MODE_TEST) :
    (s.state = HEATING → (updateOutputs F inp s).heaterPwm = heatDuty F inp s)
      ∧ (s.state = COOLING → (updateOutputs F inp s).coolerPwm = coolDuty F inp s) := by
  have hm : (s.cs.mode == MODE_TEST) = false := by simpa using hmode
  constructor
  · intro h
    have h1 : stateIsHeating s = true := by
      unfold stateIsHeating
      rw [h]
      decide
    unfold updateOutputs
    simp only [hm, h1, Bool.false_eq_true, if_false, if_true]
  · intro h
    have h1 : stateIsHeating s = false := by
      unfold stateIsHeating
      rw [h]
      decide
    have h2 : stateIsCooling s = true := by
      unfold stateIsCooling
      rw [h]
      decide
    unfold updateOutputs
    simp only [hm, h1, h2, Bool.false_eq_true, if_false, if_true]

/-- The cooler duty at full demand (`dutyLong` = -40000, `dutyConstrained` = `MIN_TEMP` =
-32767, `4 * dutyConstrained` = -131068) under the two roundings: 255 when `tempDiffToInt`
rounds toward zero, 256 when it shifts. -/
theorem updateOutputs_cooler_duty_by_rounding :
    (updateOutputs stdFormats hotFridgeInputs saturatedCoolingState).coolerPwm = 255
      ∧ (updateOutputs shiftFormats hotFridgeInputs saturatedCoolingState).coolerPwm = 256 := by
  decide

/-- The conditional of lines 323-324 is the larger of `tempSettingMin` and
`beerSetting - pidMax`, when that value fits a `temperature`. -/
theorem pidLowerBound_eq_max (s : TempControl)
    (hfit : isInt16 (max s.cc.tempSettingMin (s.cs.beerSetting - s.cc.pidMax))) :
    pidLowerBound s = max s.cc.tempSettingMin (s.cs.beerSetting - s.cc.pidMax) := by
  unfold isInt16 at hfit
  unfold pidLowerBound wrap16
  split_ifs <;> omega

/-- The conditional of lines 327-328 is the smaller of `tempSettingMax` and
`beerSetting + pidMax`, when that value fits a `temperature`. -/
theorem pidUpperBound_eq_min (s : TempControl)
    (hfit : isInt16 (min s.cc.tempSettingMax (s.cs.beerSetting + s.cc.pidMax))) :
    pidUpperBound s = min s.cc.tempSettingMax (s.cs.beerSetting + s.cc.pidMax) := by
  unfold isInt16 at hfit
  unfold pidUpperBound wrap16
  split_ifs <;> omega

/-- In a beer mode with a valid beer setting `updatePID` stores the narrowed difference
and the slope reading, and assigns the clamp of the PID sum computed from the stored
variables. -/
theorem updatePID_beer_fields (F : TempFormats) (inp : Inputs) (s : TempControl)
    (hmode : modeIsBeer s = true) (hvalid : isDisabledOrInvalid F s.cs.beerSetting = false) :
    (updatePID F inp s).cv.beerDiff = newBeerDiff inp s
      ∧ (updatePID F inp s).cv.beerSlope = inp.beerSlope
      ∧ (updatePID F inp s).cs.fridgeSetting
          = constrainTemp
              (s.cs.beerSetting
                + multiplyFactorTemperatureDiff F s.cc.Kp (updatePID F inp s).cv.beerDiff
                + multiplyFactorTemperatureDiffLong F s.cc.Ki (updatePID F inp s).cv.diffIntegral
                + multiplyFactorTemperatureDiff F s.cc.Kd (updatePID F inp s).cv.beerSlope)
              (pidLowerBound s) (pidUpperBound s) := by
  unfold updatePID newBeerDiff
  simp only [hmode, hvalid, if_true]
  exact ⟨rfl, rfl, rfl⟩

/-- C11 (as stated) fails: beer-constant mode, beer setting 20 degrees, the beer sensor
lost and reading -32768. The difference 43008 does not fit the 16-bit `cv.beerDiff`,
which becomes -22528; the proportional part saturates at `MIN_TEMP` instead of `MAX_TEMP`
and `updatePID` assigns the lower bound 5120, where the claimed formula gives the upper
bound 15360. -/
theorem updatePID_formula_counterexample :
    modeIsBeer beerState = true
      ∧ isDisabledOrInvalid stdFormats beerState.cs.beerSetting = false
      ∧ beerState.cs.beerSetting - lostBeerInputs.beerSlowFiltered = 43008
      ∧ (updatePID stdFormats lostBeerInputs beerState).cv.beerDiff = -22528
      ∧ (updatePID stdFormats lostBeerInputs beerState).cs.fridgeSetting = 5120
      ∧ constrainTemp
          (beerState.cs.beerSetting
            + multiplyFactorTemperatureDiff stdFormats beerState.cc.Kp
                (beerState.cs.beerSetting - lostBeerInputs.beerSlowFiltered)
            + multiplyFactorTemperatureDiffLong stdFormats beerState.cc.Ki
                (updatePID stdFormats lostBeerInputs beerState).cv.diffIntegral
            + multiplyFactorTemperatureDiff stdFormats beerState.cc.Kd lostBeerInputs.beerSlope)
          (max beerState.cc.tempSettingMin (beerState.cs.beerSetting - beerState.cc.pidMax))
          (min beerState.cc.tempSettingMax (beerState.cs.beerSetting + beerState.cc.pidMax))
          = 15360 := by
  decide

/-- C11 (amended): in a beer mode with a valid beer setting, `updatePID` assigns
`fridgeSetting = clamp(beerSetting + Kp*beerDiff + Ki*diffIntegral + Kd*beerSlope,
max(tempSettingMin, beerSetting - pidMax), min(tempSettingMax, beerSetting + pidMax))`,
where `beerDiff` is `beerSetting - beerSlowFiltered` narrowed to the 16-bit `temperature`
(the difference itself whenever it fits 16 bits), the products are the Q7.9
multiplications, and the bounds of the two conditional expressions equal the max and min
bounds; the two bounds are assumed to fit the 16-bit `temperature`. -/
theorem updatePID_fridgeSetting_formula (F : TempFormats) (inp : Inputs) (s : TempControl)
    (hmode : modeIsBeer s = true) (hvalid : isDisabledOrInvalid F s.cs.beerSetting = false)
    (hlo : isInt16 (max s.cc.tempSettingMin (s.cs.beerSetting - s.cc.pidMax)))
    (hhi : isInt16 (min s.cc.tempSettingMax (s.cs.beerSetting + s.cc.pidMax))) :
    (updatePID F inp s).cv.beerDiff = wrap16 (s.cs.beerSetting - inp.beerSlowFiltered)
      ∧ (isInt16 (s.cs.beerSetting - inp.beerSlowFiltered) →
          (updatePID F inp s).cv.beerDiff = s.cs.beerSetting - inp.beerSlowFiltered)
      ∧ pidLowerBound s = max s.cc.tempSettingMin (s.cs.beerSetting - s.cc.pidMax)
      ∧ pidUpperBound s = min s.cc.tempSettingMax (s.cs.beerSetting + s.cc.pidMax)
      ∧ (updatePID F inp s).cs.fridgeSetting
          = constrainTemp
              (s.cs.beerSetting
                + multiplyFactorTemperatureDiff F s.cc.Kp (updatePID F inp s).cv.beerDiff
                + multiplyFactorTemperatureDiffLong F s.cc.Ki (updatePID F inp s).cv.diffIntegral
                + multiplyFactorTemperatureDiff F s.cc.Kd inp.beerSlope)
              (max s.cc.tempSettingMin (s.cs.beerSetting - s.cc.pidMax))
              (min s.cc.tempSettingMax (s.cs.beerSetting + s.cc.pidMax)) := by
  obtain ⟨h1, h2, h3⟩ := updatePID_beer_fields F inp s hmode hvalid
  have hb : (updatePID F inp s).cv.beerDiff
      = wrap16 (s.cs.beerSetting - inp.beerSlowFiltered) := by
    rw [h1]
    rfl
  refine ⟨hb, ?_, pidLowerBound_eq_max s hlo, pidUpperBound_eq_min s hhi, ?_⟩
  · intro hdiff
    rw [hb]
    exact wrap16_eq_self hdiff
  · rw [h3, h2, pidLowerBound_eq_max s hlo, pidUpperBound_eq_min s hhi]

/-- C11 (amended), applied: beer setting 20 degrees, beer at 19.5 degrees, example
constants: `beerDiff` is 256, the bounds are 10 and 30 degrees and the fridge setting
becomes 22.5 degrees (11520 units). -/
theorem updatePID_fridgeSetting_formula_witness :
    isInt16 (beerState.cs.beerSetting - beerInputs.beerSlowFiltered)
      ∧ (updatePID stdFormats beerInputs beerState).cv.beerDiff = 256
      ∧ pidLowerBound beerState = 5120
      ∧ pidUpperBound beerState = 15360
      ∧ (updatePID stdFormats beerInputs beerState).cs.fridgeSetting = 11520 :=
  have h := updatePID_fridgeSetting_formula stdFormats beerInputs beerState
    (by decide) (by decide) (by decide) (by decide)
  ⟨by decide, (h.2.1 (by decide)).trans (by decide), h.2.2.1.trans (by decide),
   h.2.2.2.1.trans (by decide), h.2.2.2.2.trans (by decide)⟩

/-! ## The state machine when no stay-idle condition applies -/

/-- Without a stay-idle condition the `switch` is entered with the state of the call. -/
theorem updateState_of_not_stay (F : TempFormats) (inp : Inputs) (s : TempControl)
    (hstay : stayIdle F inp s = false) :
    updateState F inp s = dispatchState inp false s.state (updateDoor inp s) := by
  have hs : (s.cs.mode == MODE_OFF) = false ∧ sensorGate F inp s = false := by
    unfold stayIdle at hstay
    simpa using hstay
  have hg : gatedState F inp s = s.state := by
    unfold gatedState
    simp only [hs.1, hs.2, Bool.false_eq_true, if_false]
  unfold updateState
  simp only [stayIdle_updateDoor, gatedState_updateDoor, hstay, hg]

theorem updateDoor_lastCoolTime (inp : Inputs) (s : TempControl) :
    (updateDoor inp s).lastCoolTime = s.lastCoolTime := by
  unfold updateDoor
  split_ifs <;> rfl

/-! ## C12: leaving idle or off -/

/-- C12 (as stated) fails: fridge-constant mode at 4 degrees, entered with state off, the
fridge at 10 degrees and no cooler installed. No stay-idle condition applies, neither the
cooling nor the heating rule of the claim applies, and the new state is off, not idle. -/
theorem updateState_from_off_counterexample :
    stayIdle stdFormats noCoolerInputs offStateFridgeMode = false
      ∧ offStateFridgeMode.state = STATE_OFF
      ∧ ¬ (noCoolerInputs.fridgeFastFiltered
              > offStateFridgeMode.cs.fridgeSetting + offStateFridgeMode.cc.idleRangeHigh
            ∧ noCoolerInputs.coolerInstalled = true)
      ∧ ¬ (noCoolerInputs.fridgeFastFiltered
              < offStateFridgeMode.cs.fridgeSetting + offStateFridgeMode.cc.idleRangeLow)
      ∧ (updateState stdFormats noCoolerInputs offStateFridgeMode).state = STATE_OFF
      ∧ (updateState stdFormats noCoolerInputs offStateFridgeMode).state ≠ IDLE := by
  decide

/-- C12 (amended): for every `updateState` call entered with state idle or off in which
no stay-idle condition applies: if `fridgeFast > fridgeSetting + idleRangeHigh` the new
state is cooling when a cooler is installed and the entry state otherwise; else if
`fridgeFast < fridgeSetting + idleRangeLow` the new state is heating when a heater is
installed (or `lightAsHeater` and the light is installed) and the entry state otherwise;
else the new state is idle. Entered with idle and with `idleRangeLow <= idleRangeHigh`
this is the rule of the claim: cooling, otherwise heating, otherwise idle. -/
theorem updateState_from_idle_or_off (F : TempFormats) (inp : Inputs) (s : TempControl)
    (hentry : s.state = IDLE ∨ s.state = STATE_OFF) (hstay : stayIdle F inp s = false) :
    (updateState F inp s).state
        = (if inp.fridgeFastFiltered > s.cs.fridgeSetting + s.cc.idleRangeHigh then
            if inp.coolerInstalled = true then COOLING else s.state
          else if inp.fridgeFastFiltered < s.cs.fridgeSetting + s.cc.idleRangeLow then
            if inp.heaterInstalled = true
                ∨ (s.cc.lightAsHeater = true ∧ inp.lightInstalled = true) then HEATING
            else s.state
          else IDLE)
      ∧ (s.state = IDLE → s.cc.idleRangeLow ≤ s.cc.idleRangeHigh →
          (updateState F inp s).state
            = (if inp.fridgeFastFiltered > s.cs.fridgeSetting + s.cc.idleRangeHigh
                  ∧ inp.coolerInstalled = true then COOLING
              else if inp.fridgeFastFiltered < s.cs.fridgeSetting + s.cc.idleRangeLow
                  ∧ (inp.heaterInstalled = true
                      ∨ (s.cc.lightAsHeater = true ∧ inp.lightInstalled = true)) then HEATING
              else IDLE)) := by
  have hmain : (updateState F inp s).state
      = (if inp.fridgeFastFiltered > s.cs.fridgeSetting + s.cc.idleRangeHigh then
          if inp.coolerInstalled = true then COOLING else s.state
        else if inp.fridgeFastFiltered < s.cs.fridgeSetting + s.cc.idleRangeLow then
          if inp.heaterInstalled = true
              ∨ (s.cc.lightAsHeater = true ∧ inp.lightInstalled = true) then HEATING
          else s.state
        else IDLE) := by
    rw [updateState_of_not_stay F inp s hstay]
    rcases hentry with h | h <;> rw [h] <;>
      simp only [dispatchState, updateDoor_cs, updateDoor_cc, Bool.false_eq_true, if_false,
        Bool.or_eq_true, Bool.and_eq_true] <;>
      split_ifs <;> rfl
  refine ⟨hmain, ?_⟩
  intro hidle hrange
  rw [hmain, hidle]
  split_ifs <;> first | rfl | (exfalso; omega) | (exfalso; tauto)

/-- C12 (amended), applied: the idle fridge-constant controller at 4 degrees with the
fridge at 10 degrees and the cooler installed enters cooling. -/
theorem updateState_from_idle_or_off_witness :
    (fridgeState.state = IDLE ∨ fridgeState.state = STATE_OFF)
      ∧ stayIdle stdFormats warmFridgeInputs fridgeState = false
      ∧ fridgeState.cc.idleRangeLow ≤ fridgeState.cc.idleRangeHigh
      ∧ (updateState stdFormats warmFridgeInputs fridgeState).state = COOLING :=
  have h := updateState_from_idle_or_off stdFormats warmFridgeInputs fridgeState
    (Or.inl (by decide)) (by decide)
  ⟨Or.inl (by decide), by decide, by decide,
   (h.2 (by decide) (by decide)).trans (by decide)⟩

/-! ## C13: staying in or leaving cooling and heating -/

/-- C13: for every `updateState` call with no stay-idle condition: entered in cooling with
the cooler installed the new state is cooling if `fridgeFast > fridgeSetting` and idle if
`fridgeFast <= fridgeSetting`; entered in heating with the heater installed the new state
is heating if `fridgeFast < fridgeSetting` and idle if `fridgeFast >= fridgeSetting`;
entered in cooling (heating) with the cooler (heater) uninstalled the new state is idle. -/
theorem updateState_from_cooling_or_heating (F : TempFormats) (inp : Inputs) (s : TempControl)
    (hstay : stayIdle F inp s = false) :
    (s.state = COOLING → inp.coolerInstalled = true →
        (updateState F inp s).state
          = if inp.fridgeFastFiltered > s.cs.fridgeSetting then COOLING else IDLE)
      ∧ (s.state = HEATING → inp.heaterInstalled = true →
        (updateState F inp s).state
          = if inp.fridgeFastFiltered < s.cs.fridgeSetting then HEATING else IDLE)
      ∧ (s.state = COOLING → inp.coolerInstalled = false → (updateState F inp s).state = IDLE)
      ∧ (s.state = HEATING → inp.heaterInstalled = false → (updateState F inp s).state = IDLE) := by
  rw [updateState_of_not_stay F inp s hstay]
  refine ⟨?_, ?_, ?_, ?_⟩ <;> intro hst hinst <;> rw [hst] <;>
    simp only [dispatchState, updateDoor_cs, hinst, Bool.not_true, Bool.not_false,
      Bool.false_eq_true, if_false, if_true] <;>
    (try split_ifs) <;> first | rfl | (exfalso; omega)

/-- C13, applied: the cooling controller at 4 degrees keeps cooling at 10 degrees and goes
idle without a cooler; the heating controller keeps heating at 1 degree and goes idle at
10 degrees. -/
theorem updateState_from_cooling_or_heating_witness :
    stayIdle stdFormats laterWarmInputs coolingFridgeState = false
      ∧ (updateState stdFormats laterWarmInputs coolingFridgeState).state = COOLING
      ∧ (updateState stdFormats noCoolerInputs coolingFridgeState).state = IDLE
      ∧ (updateState stdFormats coldFridgeInputs heatingFridgeState).state = HEATING
      ∧ (updateState stdFormats warmFridgeInputs heatingFridgeState).state = IDLE :=
  ⟨by decide,
   ((updateState_from_cooling_or_heating stdFormats laterWarmInputs coolingFridgeState
      (by decide)).1 (by decide) (by decide)).trans (by decide),
   (updateState_from_cooling_or_heating stdFormats noCoolerInputs coolingFridgeState
      (by decide)).2.2.1 (by decide) (by decide),
   ((updateState_from_cooling_or_heating stdFormats coldFridgeInputs heatingFridgeState
      (by decide)).2.1 (by decide) (by decide)).trans (by decide),
   ((updateState_from_cooling_or_heating stdFormats warmFridgeInputs heatingFridgeState
      (by decide)).2.1 (by decide) (by decide)).trans (by decide)⟩

/-! ## C14: `lastCoolTime` -/

/-- C14 (as stated) fails: fridge-constant mode, cooling, `lastCoolTime` = 100, no cooler
installed, the clock at 500 s. The `switch` is entered in cooling, the uninstalled cooler
ends the case before line 415, and `lastCoolTime` is still 100. -/
theorem updateState_lastCoolTime_counterexample :
    stayIdle stdFormats noCoolerInputs coolingFridgeState = false
      ∧ coolingFridgeState.state = COOLING
      ∧ noCoolerInputs.seconds = 500
      ∧ (updateState stdFormats noCoolerInputs coolingFridgeState).lastCoolTime = 100
      ∧ (updateState stdFormats noCoolerInputs coolingFridgeState).lastCoolTime
          ≠ noCoolerInputs.seconds := by
  decide

/-- C14 (amended): for every `updateState` call whose `switch` is entered in cooling
(state was cooling and no stay-idle condition applies): with the cooler installed
`lastCoolTime` equals the current clock seconds afterwards, whether or not the call
returns to idle; with the cooler uninstalled `lastCoolTime` is unchanged. -/
theorem updateState_lastCoolTime (F : TempFormats) (inp : Inputs) (s : TempControl)
    (hstay : stayIdle F inp s = false) (hcool : s.state = COOLING) :
    (inp.coolerInstalled = true → (updateState F inp s).lastCoolTime = inp.seconds)
      ∧ (inp.coolerInstalled = false → (updateState F inp s).lastCoolTime = s.lastCoolTime) := by
  rw [updateState_of_not_stay F inp s hstay, hcool]
  constructor <;> intro hinst <;>
    simp only [dispatchState, hinst, Bool.not_true, Bool.not_false, Bool.false_eq_true,
      if_false, if_true]
  · split_ifs <;> rfl
  · exact updateDoor_lastCoolTime inp s

/-- C14 (amended), applied: the cooling controller at second 500, once with the cooler
installed (the time is taken) and once without (the time is kept). -/
theorem updateState_lastCoolTime_witness :
    stayIdle stdFormats laterWarmInputs coolingFridgeState = false
      ∧ coolingFridgeState.state = COOLING
      ∧ (updateState stdFormats laterWarmInputs coolingFridgeState).lastCoolTime = 500
      ∧ (updateState stdFormats noCoolerInputs coolingFridgeState).lastCoolTime = 100 :=
  ⟨by decide, by decide,
   (updateState_lastCoolTime stdFormats laterWarmInputs coolingFridgeState
      (by decide) (by decide)).1 (by decide),
   (updateState_lastCoolTime stdFormats noCoolerInputs coolingFridgeState
      (by decide) (by decide)).2 (by decide)⟩

/-! ## The integrator update of `updatePID` -/

/-- When execution reaches the integrator update, the new `cv.diffIntegral` is the old one
plus `integratorUpdate`, in 32 bits. -/
theorem updatePID_diffIntegral_of_step (F : TempFormats) (inp : Inputs) (s : TempControl)
    (hrun : integratorStepRuns F s = true) :
    (updatePID F inp s).cv.diffIntegral
      = wrap32 (s.cv.diffIntegral
          + integratorUpdate s (newBeerDiff inp s) inp.fridgeFastFiltered) := by
  have h : (modeIsBeer s = true ∧ isDisabledOrInvalid F s.cs.beerSetting = false)
      ∧ cadenceHit s = true := by
    simpa [integratorStepRuns] using hrun
  unfold updatePID newBeerDiff
  simp only [h.1.1, h.1.2, h.2, if_true, Bool.false_eq_true, if_false]

/-- Idle and far from the setting: the update is `-(diffIntegral >> 3)` narrowed to the
16-bit `integratorUpdate`. -/
theorem integratorUpdate_far (s : TempControl) (b f : Int) (hidle : s.state = IDLE)
    (hfar : s.cc.iMaxError ≤ iabs b) :
    integratorUpdate s b f = wrap16 (-(s.cv.diffIntegral / 8)) := by
  have h1 : ¬ (iabs b < s.cc.iMaxError) := by omega
  unfold integratorUpdate
  simp only [hidle, ne_eq, not_true_eq_false, if_false, h1]

/-- Idle and close to the setting: equal signs give 0 at saturation and `beerDiff`
otherwise, different signs give `2 * beerDiff` narrowed to 16 bits. -/
theorem integratorUpdate_near (s : TempControl) (b f : Int) (hidle : s.state = IDLE)
    (hnear : iabs b < s.cc.iMaxError) :
    integratorUpdate s b f
      = if signIsPositive b = signIsPositive s.cv.diffIntegral then
          if saturated s b f then 0 else b
        else wrap16 (b * 2) := by
  unfold integratorUpdate signIsPositive saturated
  simp only [hidle, ne_eq, not_true_eq_false, if_false, hnear, if_true]
  by_cases hb : b > 0 <;> by_cases hd : s.cv.diffIntegral > 0 <;>
    simp only [hb, hd, decide_True, decide_False, beq_self_eq_true, if_true, Bool.not_true,
      Bool.not_false, Bool.false_and, Bool.true_and, Bool.false_eq_true, if_false,
      decide_eq_true_eq, false_and, true_and, or_false] <;>
    split_ifs <;> first | rfl | omega | (exfalso; omega) | simp_all

/-- For two values other than zero the sign of lines 276-277 agrees with the usual sign. -/
theorem signIsPositive_eq_iff (a b : Int) (ha : a ≠ 0) (hb : b ≠ 0) :
    signIsPositive a = signIsPositive b ↔ Int.sign a = Int.sign b := by
  unfold signIsPositive
  rcases lt_or_gt_of_ne ha with h1 | h1 <;> rcases lt_or_gt_of_ne hb with h2 | h2
  · have e1 : ¬ a > 0 := by omega
    have e2 : ¬ b > 0 := by omega
    simp [e1, e2, Int.sign_eq_neg_one_of_neg h1, Int.sign_eq_neg_one_of_neg h2]
  · have e1 : ¬ a > 0 := by omega
    simp [e1, h2, Int.sign_eq_neg_one_of_neg h1, Int.sign_eq_one_of_pos h2]
  · have e2 : ¬ b > 0 := by omega
    simp [h1, e2, Int.sign_eq_one_of_pos h1, Int.sign_eq_neg_one_of_neg h2]
  · simp [h1, h2, Int.sign_eq_one_of_pos h1, Int.sign_eq_one_of_pos h2]

/-! ## C15: the bleed of the integrator -/

/-- As long as an eighth of the integrator fits the 16-bit update, the bleed moves the
integrator toward zero: the magnitude does not grow and the sign does not flip. -/
theorem bleed_toward_zero (d : Int) (hfit : -262136 ≤ d ∧ d ≤ 262151) :
    iabs (d + wrap16 (-(d / 8))) ≤ iabs d
      ∧ (0 ≤ d → 0 ≤ d + wrap16 (-(d / 8)))
      ∧ (d ≤ 0 → d + wrap16 (-(d / 8)) ≤ 0) := by
  unfold iabs wrap16
  refine ⟨?_, ?_, ?_⟩
  · split_ifs <;> omega
  · omega
  · omega

/-- C15: the code evaluated on a cadence invocation with state idle, `beerDiff` = 1024
(twice `iMaxError`) and `diffIntegral` = 320000. An eighth is 40000, which does not fit
the 16-bit `integratorUpdate`: the update is +25536 instead of -40000 and the integrator
grows to 345536. -/
theorem updatePID_bleed_grows :
    integratorStepRuns stdFormats woundUpState = true
      ∧ woundUpState.state = IDLE
      ∧ newBeerDiff coolBeerInputs woundUpState = 1024
      ∧ woundUpState.cc.iMaxError ≤ iabs (newBeerDiff coolBeerInputs woundUpState)
      ∧ woundUpState.cv.diffIntegral = 320000
      ∧ integratorUpdate woundUpState (newBeerDiff coolBeerInputs woundUpState)
          coolBeerInputs.fridgeFastFiltered = 25536
      ∧ (updatePID stdFormats coolBeerInputs woundUpState).cv.diffIntegral = 345536
      ∧ ¬ (iabs (updatePID stdFormats coolBeerInputs woundUpState).cv.diffIntegral
            ≤ iabs woundUpState.cv.diffIntegral) := by
  decide

/-! ## C16: the gated integrator update -/

/-- C16 (as stated) fails: cadence invocation, state idle, nothing saturated, the
integrator empty and the beer half a degree above its setting (`beerDiff` = -256). The
signs of -256 and 0 differ, so the claim has the integrator move by `2 * beerDiff` to
-512; the code compares `beerDiff > 0` with `diffIntegral > 0`, finds both false, and
moves it by `beerDiff` to -256. -/
theorem updatePID_integrator_sign_counterexample :
    integratorStepRuns stdFormats cadenceState = true
      ∧ cadenceState.state = IDLE
      ∧ newBeerDiff warmBeerInputs cadenceState = -256
      ∧ iabs (newBeerDiff warmBeerInputs cadenceState) < cadenceState.cc.iMaxError
      ∧ cadenceState.cv.diffIntegral = 0
      ∧ Int.sign (newBeerDiff warmBeerInputs cadenceState)
          ≠ Int.sign cadenceState.cv.diffIntegral
      ∧ ¬ saturated cadenceState (newBeerDiff warmBeerInputs cadenceState)
            warmBeerInputs.fridgeFastFiltered
      ∧ (updatePID stdFormats warmBeerInputs cadenceState).cv.diffIntegral = -256
      ∧ (updatePID stdFormats warmBeerInputs cadenceState).cv.diffIntegral
          ≠ cadenceState.cv.diffIntegral + 2 * newBeerDiff warmBeerInputs cadenceState := by
  decide

/-- C16 (amended): on a cadence invocation of `updatePID` with state idle and `|beerDiff| <
iMaxError`, with the sign taken as lines 276-277 take it (positive or not positive, zero
counting as not positive): if `beerDiff` and `diffIntegral` have the same sign and at
least one saturation condition holds, `diffIntegral` is unchanged; if they have the same
sign and no condition holds, `diffIntegral` increases by `beerDiff`; if the signs differ
it increases by `2 * beerDiff`. The doubled update is assumed to fit 16 bits and the sums
32 bits. -/
theorem updatePID_integrator_near (F : TempFormats) (inp : Inputs) (s : TempControl)
    (hrun : integratorStepRuns F s = true) (hidle : s.state = IDLE)
    (hnear : iabs (newBeerDiff inp s) < s.cc.iMaxError)
    (h16 : isInt16 (2 * newBeerDiff inp s))
    (h32 : isInt32 s.cv.diffIntegral ∧ isInt32 (s.cv.diffIntegral + 2 * newBeerDiff inp s)) :
    (signIsPositive (newBeerDiff inp s) = signIsPositive s.cv.diffIntegral →
        saturated s (newBeerDiff inp s) inp.fridgeFastFiltered →
        (updatePID F inp s).cv.diffIntegral = s.cv.diffIntegral)
      ∧ (signIsPositive (newBeerDiff inp s) = signIsPositive s.cv.diffIntegral →
        ¬ saturated s (newBeerDiff inp s) inp.fridgeFastFiltered →
        (updatePID F inp s).cv.diffIntegral = s.cv.diffIntegral + newBeerDiff inp s)
      ∧ (signIsPositive (newBeerDiff inp s) ≠ signIsPositive s.cv.diffIntegral →
        (updatePID F inp s).cv.diffIntegral = s.cv.diffIntegral + 2 * newBeerDiff inp s) := by
  rw [updatePID_diffIntegral_of_step F inp s hrun,
    integratorUpdate_near s _ _ hidle hnear]
  obtain ⟨h32a, h32b⟩ := h32
  unfold isInt16 at h16
  unfold isInt32 at h32a h32b
  refine ⟨?_, ?_, ?_⟩
  · intro hs hsat
    rw [if_pos hs, if_pos hsat]
    unfold wrap32
    omega
  · intro hs hsat
    rw [if_pos hs, if_neg hsat]
    unfold wrap32
    omega
  · intro hs
    rw [if_neg hs]
    unfold wrap32 wrap16
    omega

/-- C16 (amended), applied: idle at 20 degrees with the beer at 19.5 degrees (`beerDiff` = 256):
an integrator of 1000 (same sign) grows by 256, stays at 1000 when the fridge setting is
at `tempSettingMax`, and an integrator of -1000 (other sign) grows by 512. -/
theorem updatePID_integrator_near_witness :
    (updatePID stdFormats beerInputs
        { cadenceState with cv := { diffIntegral := 1000 } }).cv.diffIntegral = 1256
      ∧ (updatePID stdFormats beerInputs
        { cadenceState with cv := { diffIntegral := 1000 },
                            cs := { cadenceState.cs with fridgeSetting := 15360 } }
          ).cv.diffIntegral = 1000
      ∧ (updatePID stdFormats beerInputs
        { cadenceState with cv := { diffIntegral := -1000 } }).cv.diffIntegral = -488 :=
  ⟨((updatePID_integrator_near stdFormats beerInputs
        { cadenceState with cv := { diffIntegral := 1000 } }
        (by decide) (by decide) (by decide) (by decide) (by decide)).2.1
      (by decide) (by decide)).trans (by decide),
   (updatePID_integrator_near stdFormats beerInputs
        { cadenceState with cv := { diffIntegral := 1000 },
                            cs := { cadenceState.cs with fridgeSetting := 15360 } }
        (by decide) (by decide) (by decide) (by decide) (by decide)).1
      (by decide) (by decide),
   ((updatePID_integrator_near stdFormats beerInputs
        { cadenceState with cv := { diffIntegral := -1000 } }
        (by decide) (by decide) (by decide) (by decide) (by decide)).2.2
      (by decide)).trans (by decide)⟩

/-! ## C17: a disabled beer setting -/

/-- C17: in a beer mode with the beer setting disabled or invalid, `updatePID` sets
`fridgeSetting = DISABLED_TEMP` and changes nothing else (the control variables and the
cadence counter are unchanged), and a following `updateState` leaves the state idle, for
every prior state and every sensor reading. -/
theorem updatePID_disabled_beerSetting (F : TempFormats) (inp inp2 : Inputs) (s : TempControl)
    (hmode : modeIsBeer s = true) (hdis : isDisabledOrInvalid F s.cs.beerSetting = true) :
    updatePID F inp s = withFridgeSetting F.DISABLED_TEMP s
      ∧ (updatePID F inp s).cs.fridgeSetting = F.DISABLED_TEMP
      ∧ (updatePID F inp s).cv = s.cv
      ∧ (updatePID F inp s).integralUpdateCounter = s.integralUpdateCounter
      ∧ (updateState F inp2 (updatePID F inp s)).state = IDLE := by
  have h : updatePID F inp s = withFridgeSetting F.DISABLED_TEMP s := by
    unfold updatePID withFridgeSetting
    simp only [hmode, hdis, if_true]
  refine ⟨h, ?_, ?_, ?_, ?_⟩
  · rw [h]
    rfl
  · rw [h]
    rfl
  · rw [h]
    rfl
  · apply updateState_idle_of_gate
    unfold sensorGate
    rw [h]
    simp [withFridgeSetting, isDisabledOrInvalid_disabled]

/-- C17, applied: a cooling beer-constant controller whose beer setting is `DISABLED_TEMP`,
with a warm fridge. -/
theorem updatePID_disabled_beerSetting_witness :
    modeIsBeer disabledBeerState = true
      ∧ isDisabledOrInvalid stdFormats disabledBeerState.cs.beerSetting = true
      ∧ (updatePID stdFormats beerInputs disabledBeerState).cs.fridgeSetting = -32767
      ∧ (updatePID stdFormats beerInputs disabledBeerState).cv = disabledBeerState.cv
      ∧ (updatePID stdFormats beerInputs disabledBeerState).integralUpdateCounter = 12
      ∧ (updateState stdFormats warmFridgeInputs
          (updatePID stdFormats beerInputs disabledBeerState)).state = IDLE :=
  have h := updatePID_disabled_beerSetting stdFormats beerInputs warmFridgeInputs
    disabledBeerState (by decide) (by decide)
  ⟨by decide, by decide, h.2.1, h.2.2.1, h.2.2.2.1, h.2.2.2.2⟩

/-! ## C18: `setMode` -/

/-- C18: `setMode(newMode, force)`: if `newMode` differs from the current mode, afterwards
the state is idle, the mode is `newMode` and the settings have been persisted exactly
once, whatever `force` is; if `newMode` equals the current mode and `force` is true, the
state is unchanged and the settings are persisted exactly once; if `newMode` equals the
current mode and `force` is false, no field changes and nothing is persisted. Persisted
exactly once: one more write, after which the settings block of the store holds the
settings now in memory and no other block has changed. -/
theorem setMode_cases (F : TempFormats) (newMode : Char) (force : Bool) (s : TempControl) :
    (newMode ≠ s.cs.mode →
        (setMode F newMode force s).state = IDLE
          ∧ (setMode F newMode force s).cs.mode = newMode
          ∧ persistedOnce s (setMode F newMode force s))
      ∧ (newMode = s.cs.mode → force = true →
        (setMode F newMode force s).state = s.state
          ∧ persistedOnce s (setMode F newMode force s))
      ∧ (newMode = s.cs.mode → force = false → setMode F newMode force s = s) := by
  refine ⟨?_, ?_, ?_⟩
  · intro hne
    have hch : (newMode != s.cs.mode) = true := by simpa using hne
    unfold persistedOnce setMode storeTempSettings storeSettings
    simp only [hch, Bool.or_true, if_true]
    refine ⟨?_, ?_, ?_, ?_, ?_, ?_⟩
    all_goals first
      | trivial
      | (intro o ho; split_ifs <;> first | rfl | exact absurd ‹o = 0› ho)
      | (split_ifs <;> rfl)
  · intro heq hforce
    have hch : (newMode != s.cs.mode) = false := by simpa using heq
    unfold persistedOnce setMode storeTempSettings storeSettings
    simp only [hch, hforce, Bool.or_false, Bool.false_eq_true, if_false, if_true]
    refine ⟨?_, ?_, ?_, ?_, ?_⟩
    all_goals first
      | trivial
      | (intro o ho; split_ifs <;> first | rfl | exact absurd ‹o = 0› ho)
      | (split_ifs <;> rfl)
  · intro heq hforce
    have hch : (newMode != s.cs.mode) = false := by simpa using heq
    unfold setMode
    simp only [hch, hforce, Bool.or_false, Bool.false_eq_true, if_false]

/-- C18, applied to the cooling beer-constant controller: a change to fridge-constant
(the store then holds the fridge-constant settings), a forced and an unforced `setMode`
with the mode it already has. -/
theorem setMode_cases_witness :
    ((setMode stdFormats MODE_FRIDGE_CONSTANT false coolingBeerState).state = IDLE
        ∧ (setMode stdFormats MODE_FRIDGE_CONSTANT false coolingBeerState).cs.mode
            = MODE_FRIDGE_CONSTANT
        ∧ persistedOnce coolingBeerState
            (setMode stdFormats MODE_FRIDGE_CONSTANT false coolingBeerState)
        ∧ Option.map (fun cs => cs.mode)
            ((setMode stdFormats MODE_FRIDGE_CONSTANT false coolingBeerState).nvSettings 0)
            = some MODE_FRIDGE_CONSTANT)
      ∧ ((setMode stdFormats MODE_BEER_CONSTANT true coolingBeerState).state = COOLING
        ∧ persistedOnce coolingBeerState
            (setMode stdFormats MODE_BEER_CONSTANT true coolingBeerState))
      ∧ setMode stdFormats MODE_BEER_CONSTANT false coolingBeerState = coolingBeerState :=
  have h1 := (setMode_cases stdFormats MODE_FRIDGE_CONSTANT false coolingBeerState).1
    (by decide)
  ⟨⟨h1.1, h1.2.1, h1.2.2, by decide⟩,
   (setMode_cases stdFormats MODE_BEER_CONSTANT true coolingBeerState).2.1 (by decide) rfl,
   (setMode_cases stdFormats MODE_BEER_CONSTANT false coolingBeerState).2.2 (by decide) rfl⟩

/-! ## C19: the round trip through the NV store -/

/-- `setMode` called with the mode the controller already has, forced: the settings are
kept unless the mode is off, in which case both temperatures are disabled. -/
theorem setMode_same_forced_cs (F : TempFormats) (s : TempControl) :
    (s.cs.mode ≠ MODE_OFF → (setMode F s.cs.mode true s).cs = s.cs)
      ∧ (s.cs.mode = MODE_OFF →
          (setMode F s.cs.mode true s).cs
            = { mode := MODE_OFF, beerSetting := F.DISABLED_TEMP,
                fridgeSetting := F.DISABLED_TEMP }) := by
  constructor
  · intro h
    have hoff : (s.cs.mode == MODE_OFF) = false := by simpa using h
    unfold setMode storeTempSettings storeSettings
    simp only [bne_self_eq_false, Bool.true_or, if_true, Bool.false_eq_true, if_false, hoff]
  · intro h
    have hoff : (s.cs.mode == MODE_OFF) = true := by simpa using h
    unfold setMode storeTempSettings storeSettings
    simp only [bne_self_eq_false, Bool.true_or, if_true, Bool.false_eq_true, if_false, hoff]
    rw [h]

/-- C20: the initialiser of `ccDefaults` evaluated: `Kp` = 2560 (5.0) and `Ki` = 128
(0.25) as claimed, but `Kd` = +768 (`doubleToTempDiff(1.5)`), not the -768 (-1.5) of the
claim and of the comment on line 96. -/
theorem ccDefaults_gains (intToTemp : Int → Int) :
    (ccDefaults intToTemp).Kp = 2560
      ∧ (ccDefaults intToTemp).Ki = 128
      ∧ (ccDefaults intToTemp).Kd = 768
      ∧ (ccDefaults intToTemp).Kd ≠ -768 := by
  simp only [ccDefaults, doubleToTempDiff]
  norm_num

/-! ## C21: the integrator at a saturated setpoint -/

/-- A saturated setpoint is one of the saturation conditions of the integrator update. -/
theorem saturated_of_setpointSaturated (s : TempControl) (b f : Int)
    (h : setpointSaturated s) : saturated s b f := by
  unfold setpointSaturated iabs at h
  unfold saturated
  split_ifs at h <;> omega

/-- C21 (as stated) fails: cadence invocation, state idle, fridge setting at
`tempSettingMax`, `beerDiff` = 256 (below `iMaxError`), `diffIntegral` = -100. The signs
differ, so the update is doubled and carries the integrator through zero to 412: its
magnitude grows from 100 to 412. -/
theorem updatePID_saturated_counterexample :
    integratorStepRuns stdFormats saturatedSmallIntegral = true
      ∧ saturatedSmallIntegral.state = IDLE
      ∧ iabs (newBeerDiff beerInputs saturatedSmallIntegral) < saturatedSmallIntegral.cc.iMaxError
      ∧ setpointSaturated saturatedSmallIntegral
      ∧ saturatedSmallIntegral.cv.diffIntegral = -100
      ∧ (updatePID stdFormats beerInputs saturatedSmallIntegral).cv.diffIntegral = 412
      ∧ ¬ (iabs (updatePID stdFormats beerInputs saturatedSmallIntegral).cv.diffIntegral
            ≤ iabs saturatedSmallIntegral.cv.diffIntegral) := by
  decide

/-- The empty integrator at a saturated setpoint: a positive `beerDiff` of 256 counts as a
sign change (zero is not positive) and winds the integrator up to 512; a negative
`beerDiff` of -256 counts as the same sign and leaves it at 0. -/
theorem updatePID_saturated_from_zero :
    setpointSaturated saturatedEmptyIntegral
      ∧ saturatedEmptyIntegral.cv.diffIntegral = 0
      ∧ newBeerDiff beerInputs saturatedEmptyIntegral = 256
      ∧ (updatePID stdFormats beerInputs saturatedEmptyIntegral).cv.diffIntegral = 512
      ∧ newBeerDiff warmBeerInputs saturatedEmptyIntegral = -256
      ∧ (updatePID stdFormats warmBeerInputs saturatedEmptyIntegral).cv.diffIntegral = 0 := by
  decide

/-- C21 (amended): on a cadence invocation of `updatePID` with state idle and `|beerDiff| <
iMaxError`, if the fridge setpoint is saturated (`fridgeSetting >= tempSettingMax`, or
`fridgeSetting <= tempSettingMin`, or `|fridgeSetting - beerSetting| >= pidMax`), then
`diffIntegral` is unchanged when `beerDiff` and `diffIntegral` have the same sign (both
positive or both not positive), and `|diffIntegral|` does not increase when `|beerDiff| <=
|diffIntegral|`. The doubled update is assumed to fit 16 bits and `diffIntegral` 32 bits. -/
theorem updatePID_saturated_no_windup (F : TempFormats) (inp : Inputs) (s : TempControl)
    (hrun : integratorStepRuns F s = true) (hidle : s.state = IDLE)
    (hnear : iabs (newBeerDiff inp s) < s.cc.iMaxError)
    (h16 : isInt16 (2 * newBeerDiff inp s)) (h32 : isInt32 s.cv.diffIntegral)
    (hsat : setpointSaturated s) :
    (signIsPositive (newBeerDiff inp s) = signIsPositive s.cv.diffIntegral →
        (updatePID F inp s).cv.diffIntegral = s.cv.diffIntegral)
      ∧ (iabs (newBeerDiff inp s) ≤ iabs s.cv.diffIntegral →
        iabs (updatePID F inp s).cv.diffIntegral ≤ iabs s.cv.diffIntegral) := by
  have hsat2 := saturated_of_setpointSaturated s (newBeerDiff inp s) inp.fridgeFastFiltered hsat
  have hsame : signIsPositive (newBeerDiff inp s) = signIsPositive s.cv.diffIntegral →
      (updatePID F inp s).cv.diffIntegral = s.cv.diffIntegral := by
    intro hs
    rw [updatePID_diffIntegral_of_step F inp s hrun,
      integratorUpdate_near s _ _ hidle hnear, if_pos hs, if_pos hsat2, add_zero]
    exact wrap32_eq_self h32
  refine ⟨hsame, ?_⟩
  intro hle
  by_cases hs : signIsPositive (newBeerDiff inp s) = signIsPositive s.cv.diffIntegral
  · rw [hsame hs]
  · rw [updatePID_diffIntegral_of_step F inp s hrun,
      integratorUpdate_near s _ _ hidle hnear, if_neg hs]
    have hopp : (newBeerDiff inp s > 0 ∧ ¬ s.cv.diffIntegral > 0)
        ∨ (¬ newBeerDiff inp s > 0 ∧ s.cv.diffIntegral > 0) := by
      unfold signIsPositive at hs
      by_cases hb : newBeerDiff inp s > 0 <;> by_cases hd : s.cv.diffIntegral > 0
      · simp [hb, hd] at hs
      · exact Or.inl ⟨hb, hd⟩
      · exact Or.inr ⟨hb, hd⟩
      · simp [hb, hd] at hs
    unfold isInt16 at h16
    unfold isInt32 at h32
    unfold iabs at hle ⊢
    unfold wrap32 wrap16
    split_ifs at hle ⊢ <;> omega

/-- C21 (amended), applied at the saturated setpoint with `beerDiff` = 256: an integrator
of -1000 moves to -488, and with `beerDiff` = -256 (same sign) it stays at -1000. -/
theorem updatePID_saturated_no_windup_witness :
    setpointSaturated saturatedLargeIntegral
      ∧ iabs (newBeerDiff beerInputs saturatedLargeIntegral)
          ≤ iabs saturatedLargeIntegral.cv.diffIntegral
      ∧ iabs (updatePID stdFormats beerInputs saturatedLargeIntegral).cv.diffIntegral
          ≤ iabs saturatedLargeIntegral.cv.diffIntegral
      ∧ (updatePID stdFormats beerInputs saturatedLargeIntegral).cv.diffIntegral = -488
      ∧ (updatePID stdFormats warmBeerInputs saturatedLargeIntegral).cv.diffIntegral = -1000 :=
  ⟨by decide, by decide,
   (updatePID_saturated_no_windup stdFormats beerInputs saturatedLargeIntegral
      (by decide) (by decide) (by decide) (by decide) (by decide) (by decide)).2 (by decide),
   by decide,
   ((updatePID_saturated_no_windup stdFormats warmBeerInputs saturatedLargeIntegral
      (by decide) (by decide) (by decide) (by decide) (by decide) (by decide)).1
      (by decide)).trans (by decide)⟩

/-! ## C22: `lastHeatTime` -/

theorem storeSettings_lastHeatTime (offset : Nat) (s : TempControl) :
    (storeSettings offset s).lastHeatTime = s.lastHeatTime := rfl

theorem storeConstants_lastHeatTime (offset : Nat) (s : TempControl) :
    (storeConstants offset s).lastHeatTime = s.lastHeatTime := rfl

theorem updatePID_lastHeatTime (F : TempFormats) (inp : Inputs) (s : TempControl) :
    (updatePID F inp s).lastHeatTime = s.lastHeatTime := by
  unfold updatePID
  split_ifs <;> rfl

theorem updateDoor_lastHeatTime (inp : Inputs) (s : TempControl) :
    (updateDoor inp s).lastHeatTime = s.lastHeatTime := by
  unfold updateDoor
  split_ifs <;> rfl

theorem dispatchState_lastHeatTime (inp : Inputs) (stay : Bool) (st : states)
    (s : TempControl) : (dispatchState inp stay st s).lastHeatTime = s.lastHeatTime := by
  cases st <;> simp only [dispatchState] <;> split_ifs <;> rfl

/-- No branch of `updateState` assigns `lastHeatTime`. -/
theorem updateState_lastHeatTime (F : TempFormats) (inp : Inputs) (s : TempControl) :
    (updateState F inp s).lastHeatTime = s.lastHeatTime := by
  unfold updateState
  simp only [dispatchState_lastHeatTime, updateDoor_lastHeatTime]

theorem updateOutputs_lastHeatTime (F : TempFormats) (inp : Inputs) (s : TempControl) :
    (updateOutputs F inp s).lastHeatTime = s.lastHeatTime := by
  unfold updateOutputs
  dsimp only
  split_ifs <;> rfl

theorem setMode_lastHeatTime (F : TempFormats) (newMode : Char) (force : Bool)
    (s : TempControl) : (setMode F newMode force s).lastHeatTime = s.lastHeatTime := by
  unfold setMode storeTempSettings storeSettings
  dsimp only
  split_ifs <;> rfl

theorem setBeerTemp_lastHeatTime (F : TempFormats) (inp : Inputs) (newTemp : Int)
    (s : TempControl) : (setBeerTemp F inp newTemp s).lastHeatTime = s.lastHeatTime := by
  unfold setBeerTemp storeTempSettings
  dsimp only
  split_ifs <;>
    simp only [storeSettings_lastHeatTime, updateState_lastHeatTime, updatePID_lastHeatTime]

theorem setFridgeTemp_lastHeatTime (F : TempFormats) (inp : Inputs) (newTemp : Int)
    (s : TempControl) : (setFridgeTemp F inp newTemp s).lastHeatTime = s.lastHeatTime := by
  unfold setFridgeTemp storeTempSettings
  simp only [storeSettings_lastHeatTime, updateState_lastHeatTime, updatePID_lastHeatTime]

theorem loadSettings_lastHeatTime (F : TempFormats) (offset : Nat) (s : TempControl) :
    ((loadSettings F offset s).getD s).lastHeatTime = s.lastHeatTime := by
  unfold loadSettings
  cases s.nvSettings offset with
  | none => rfl
  | some cs => simp only [Option.getD_some, setMode_lastHeatTime]

theorem loadConstants_lastHeatTime (offset : Nat) (s : TempControl) :
    ((loadConstants offset s).getD s).lastHeatTime = s.lastHeatTime := by
  unfold loadConstants
  cases s.nvConstants offset with
  | none => rfl
  | some cc => rfl

/-- Every call other than `init` keeps `lastHeatTime`; `init` sets it to 0. -/
theorem applyCall_lastHeatTime (F : TempFormats) (c : Call) (s : TempControl) :
    (applyCall F c s).lastHeatTime = s.lastHeatTime ∨ (applyCall F c s).lastHeatTime = 0 := by
  cases c with
  | init => exact Or.inr rfl
  | updatePID inp => exact Or.inl (updatePID_lastHeatTime F inp s)
  | updateState inp => exact Or.inl (updateState_lastHeatTime F inp s)
  | updateOutputs inp => exact Or.inl (updateOutputs_lastHeatTime F inp s)
  | setMode newMode force => exact Or.inl (setMode_lastHeatTime F newMode force s)
  | setBeerTemp inp newTemp => exact Or.inl (setBeerTemp_lastHeatTime F inp newTemp s)
  | setFridgeTemp inp newTemp => exact Or.inl (setFridgeTemp_lastHeatTime F inp newTemp s)
  | storeSettings offset => exact Or.inl rfl
  | loadSettings offset => exact Or.inl (loadSettings_lastHeatTime F offset s)
  | storeConstants offset => exact Or.inl rfl
  | loadConstants offset => exact Or.inl (loadConstants_lastHeatTime offset s)

/-- Once `lastHeatTime` is 0 it stays 0 through every sequence of calls. -/
theorem runCalls_lastHeatTime_zero (F : TempFormats) (calls : List Call) (s : TempControl)
    (h : s.lastHeatTime = 0) : (runCalls F calls s).lastHeatTime = 0 := by
  induction calls generalizing s with
  | nil => exact h
  | cons c rest ih =>
    simp only [runCalls]
    apply ih
    rcases applyCall_lastHeatTime F c s with h1 | h1
    · rw [h1, h]
    · exact h1

/-- C22: `updateState` never writes `lastHeatTime`: for every call, in every state
including heating, `lastHeatTime` after equals `lastHeatTime` before; `init` sets it to 0,
and after `init` and any sequence of calls of the controller it is still 0, so
`timeSinceHeating()` equals the clock's time since 0. -/
theorem updateState_never_writes_lastHeatTime (F : TempFormats) (inp : Inputs)
    (s : TempControl) (calls : List Call) (timeSince : Nat → Nat) :
    (updateState F inp s).lastHeatTime = s.lastHeatTime
      ∧ (init s).lastHeatTime = 0
      ∧ (runCalls F calls (init s)).lastHeatTime = 0
      ∧ timeSinceHeating timeSince (runCalls F calls (init s)) = timeSince 0 := by
  have h0 : (runCalls F calls (init s)).lastHeatTime = 0 :=
    runCalls_lastHeatTime_zero F calls (init s) rfl
  refine ⟨updateState_lastHeatTime F inp s, rfl, h0, ?_⟩
  unfold timeSinceHeating
  rw [h0]

/-- The frame property evaluated: a controller initialised at second 0 and since put in
fridge-constant mode and state heating keeps heating at second 500 (fridge at 1 degree,
setting 4 degrees); `lastHeatTime` is still 0, so with the clock at 500 the time since
heating reads 500. -/
theorem updateState_heating_keeps_lastHeatTime :
    (updateState stdFormats { coldFridgeInputs with seconds := 500 }
        { heatingSinceBoot with state := HEATING, cs := fridgeState.cs }).state = HEATING
      ∧ (updateState stdFormats { coldFridgeInputs with seconds := 500 }
        { heatingSinceBoot with state := HEATING, cs := fridgeState.cs }).lastHeatTime = 0
      ∧ timeSinceHeating (fun t => 500 - t)
          (updateState stdFormats { coldFridgeInputs with seconds := 500 }
            { heatingSinceBoot with state := HEATING, cs := fridgeState.cs }) = 500 := by
  decide

end BrewPi
